import Mathlib

/-!
Verification of the plansync-backend request-validation, authorization and
aggregation pipeline (Flask routes in `app/routes/plans.py` and the entity
accessors in `app/models/`).  Records returned by the external record store
are modelled as association lists of JSON-like values; the store itself is a
collection of such tables, and each accessor / handler is translated into a
pure function over that state.  Exception behaviour of the accessor layer is
modelled separately in an `Except` monad.
-/

namespace PlanSync

/-- A JSON-like value stored in a record field (Python scalar). -/
inductive Val where
  | str : String → Val
  | int : Int → Val
  | bool : Bool → Val
  | null : Val
deriving DecidableEq, Repr

/-- A record row: an association list from field names to values, modelling a
Python dict (first occurrence of a key wins on lookup). -/
abbrev Rec := List (String × Val)

/-- Field lookup, modelling `d.get(k)` / `d[k]`. -/
def rget : Rec → String → Option Val
  | [], _ => none
  | p :: rest, k => if p.1 = k then some p.2 else rget rest k

/-- Assignment `d[k] = v`: overwrite every occurrence of the key, or append
the binding when the key is absent. -/
def rset (r : Rec) (k : String) (v : Val) : Rec :=
  if (rget r k).isSome then r.map (fun p => if p.1 = k then (k, v) else p)
  else r ++ [(k, v)]

/-- Apply an update payload to a row, key by key in order: this is the effect
of the record store executing `update(payload)` on one matching row. -/
def applyUpdates (r : Rec) : Rec → Rec
  | [] => r
  | p :: rest => applyUpdates (rset r p.1 p.2) rest

/-- The value the key ends up with after a payload is applied: the last
binding of the key in the payload, if any. -/
def ulast : Rec → String → Option Val
  | [], _ => none
  | p :: rest, k =>
    match ulast rest k with
    | some v => some v
    | none => if p.1 = k then some p.2 else none

/-- Python truthiness of a scalar value. -/
def truthy : Val → Bool
  | .str s => !s.isEmpty
  | .int n => n != 0
  | .bool b => b
  | .null => false

/-- Drop `None`-valued entries, modelling the dict comprehension
`{k: v for k, v in data.items() if v is not None}` used by the accessors. -/
def dropNulls (r : Rec) : Rec :=
  r.filter (fun p => p.2 != Val.null)

/-- Python `str(...)` of a scalar value. -/
def pyStr : Val → String
  | .str s => s
  | .int n => toString n
  | .bool b => if b then "True" else "False"
  | .null => "None"

/-- The record-store state: one table per collection used by the plan routes. -/
structure Store where
  plans : List Rec
  guests : List Rec
  guest_phones : List Rec
  tasks : List Rec
deriving DecidableEq, Repr

/-- `select('*').eq(k, v).execute().data`: the rows whose field `k` equals `v`. -/
def selectEq (tbl : List Rec) (k : String) (v : Val) : List Rec :=
  tbl.filter (fun r => decide (rget r k = some v))

/-- `update(u).eq(k, v).execute()`: apply the payload to every matching row. -/
def updateEq (tbl : List Rec) (k : String) (v : Val) (u : Rec) : List Rec :=
  tbl.map (fun r => if rget r k = some v then applyUpdates r u else r)

/-- `delete().eq(k, v).execute()`: remove every matching row. -/
def deleteEq (tbl : List Rec) (k : String) (v : Val) : List Rec :=
  tbl.filter (fun r => !decide (rget r k = some v))

namespace Plan

/-- `Plan.create` (`app/models/plan.py`): build the field dict with defaults,
drop `None` entries, insert the row and return it.  The store assigns the new
primary key `newId`; this layer models the successful gateway path (the
exception path is modelled separately for the error-policy claim). -/
def create (s : Store) (newId : Val) (user_id title : Val) (event_date : String)
    (description location category_id budget guest_count status is_public : Val) :
    Store × Option Rec :=
  let data : Rec := dropNulls
    [("user_id", user_id), ("title", title), ("event_date", Val.str event_date),
     ("description", description), ("location", location),
     ("category_id", category_id), ("budget", budget),
     ("guest_count", guest_count), ("status", status), ("is_public", is_public)]
  let row : Rec := ("id", newId) :: data
  ({ s with plans := s.plans ++ [row] }, some row)

/-- `Plan.get_by_id`: `select('*').eq('id', plan_id)` and take the first row. -/
def get_by_id (s : Store) (pid : Val) : Option Rec :=
  (selectEq s.plans "id" pid).head?

/-- `Plan.get_user_plans`: the user's plans with `range(offset, offset+limit-1)`
pagination.  The server-side `order('event_date', desc=True)` is modelled as
the ambient table order. -/
def get_user_plans (s : Store) (uid : Val) (limit offset : Nat) : List Rec :=
  ((selectEq s.plans "user_id" uid).drop offset).take limit

/-- `Plan.update`: stamp `updates['updated_at']` with the current time, apply
the payload to every row matching the id, and return the first updated row
echoed by the store (`response.data[0]`), or `None` when nothing matched. -/
def update (now : String) (s : Store) (pid : Val) (updates : Rec) :
    Store × Option Rec :=
  let u := rset updates "updated_at" (Val.str now)
  let touched := (selectEq s.plans "id" pid).map (fun r => applyUpdates r u)
  ({ s with plans := updateEq s.plans "id" pid u }, touched.head?)

/-- `Plan.delete`: delete matching rows, report whether any row was removed. -/
def delete (s : Store) (pid : Val) : Store × Bool :=
  let matched := selectEq s.plans "id" pid
  ({ s with plans := deleteEq s.plans "id" pid }, !matched.isEmpty)

end Plan

namespace Guest

/-- A guest as returned to handlers: the guest row paired with its attached
`phone_numbers` list (`app/models/guest.py` stores the list under the
`phone_numbers` key of the returned dict; it is modelled as a pair because
record fields hold scalars). -/
abbrev View := Rec × List Rec

/-- `Guest.add_phone_numbers`: build one `guest_phones` row per entry (with
the `type`/`is_primary` defaults of the source) and batch-insert them. -/
def add_phone_numbers (s : Store) (gid : Val) (phones : List Rec) :
    Store × List Rec :=
  let rows := phones.map (fun ph =>
    [("guest_id", gid),
     ("phone_number", (rget ph "number").getD Val.null),
     ("phone_type", (rget ph "type").getD (Val.str "mobile")),
     ("is_primary", (rget ph "is_primary").getD (Val.bool false))])
  ({ s with guest_phones := s.guest_phones ++ rows }, rows)

/-- `Guest.get_by_id`: fetch the guest row, then all its phone rows. -/
def get_by_id (s : Store) (gid : Val) : Option View :=
  match (selectEq s.guests "id" gid).head? with
  | none => none
  | some g => some (g, selectEq s.guest_phones "guest_id" gid)

/-- `Guest.create`: insert the guest row (dropping `None` fields), insert the
supplied phone numbers when the list is non-empty, then re-fetch the guest so
the returned object includes its phone list. -/
def create (s : Store) (newId : Val) (plan_id name email phone rsvp_status
    additional_notes : Val) (phone_numbers : List Rec) : Store × Option View :=
  let guest_data : Rec := dropNulls
    [("plan_id", plan_id), ("name", name), ("email", email), ("phone", phone),
     ("rsvp_status", rsvp_status), ("additional_notes", additional_notes)]
  let row : Rec := ("id", newId) :: guest_data
  let s1 : Store := { s with guests := s.guests ++ [row] }
  let s2 := if phone_numbers.isEmpty then s1
            else (add_phone_numbers s1 newId phone_numbers).1
  (s2, get_by_id s2 newId)

/-- `Guest.get_plan_guests`: all guests of the plan, each with its phone rows
(the source batches the phone query and groups by guest id; the per-guest
phone subset is the same). -/
def get_plan_guests (s : Store) (pid : Val) : List View :=
  (selectEq s.guests "plan_id" pid).map (fun g =>
    (g, selectEq s.guest_phones "guest_id" ((rget g "id").getD Val.null)))

/-- `Guest.update`: apply the payload to the matching rows; when the store
echoed at least one updated row, re-fetch and return the authoritative
post-update guest, else `None`. -/
def update (s : Store) (gid : Val) (updates : Rec) : Store × Option View :=
  let touched := (selectEq s.guests "id" gid).map (fun r => applyUpdates r updates)
  let s2 : Store := { s with guests := updateEq s.guests "id" gid updates }
  (s2, if touched.isEmpty then none else get_by_id s2 gid)

/-- `Guest.update_rsvp`: delegate to `Guest.update` with a one-field payload. -/
def update_rsvp (s : Store) (gid : Val) (rsvp_status : String) :
    Store × Option View :=
  update s gid [("rsvp_status", Val.str rsvp_status)]

/-- `Guest.mark_invitation_sent`: set the flag and the server timestamp. -/
def mark_invitation_sent (now : String) (s : Store) (gid : Val) :
    Store × Option View :=
  update s gid [("is_invitation_sent", Val.bool true),
                ("invitation_sent_at", Val.str now)]

/-- `Guest.delete`: delete matching rows, report whether any was removed. -/
def delete (s : Store) (gid : Val) : Store × Bool :=
  let matched := selectEq s.guests "id" gid
  ({ s with guests := deleteEq s.guests "id" gid }, !matched.isEmpty)

end Guest

namespace EventTask

/-- `EventTask.create_task` (`app/models/event_task.py`): build the dict with
the `medium` priority default, drop `None` fields and insert. -/
def create_task (s : Store) (newId : Val)
    (plan_id title description due_date priority assigned_to : Val) :
    Store × Option Rec :=
  let data : Rec := dropNulls
    [("plan_id", plan_id), ("title", title), ("description", description),
     ("due_date", due_date), ("priority", priority),
     ("assigned_to", assigned_to)]
  let row : Rec := ("id", newId) :: data
  ({ s with tasks := s.tasks ++ [row] }, some row)

end EventTask

/-- The identity resolved by the auth capability (`user.user` of the gateway
response): at minimum an id and email. -/
structure AuthUser where
  id : String
  email : String
deriving DecidableEq, Repr

/- HTTP status codes of `app/routes/status_codes.py` (`Codes`). -/
namespace Codes

def SUCCESS : Nat := 201

def ERROR : Nat := 400

def NOT_FOUND : Nat := 404

def UNAUTHORISED_ACCESS : Nat := 401

def SERVICE_NOT_AVAILABLE : Nat := 500

end Codes

/-- The check `auth_header.startswith('Bearer ')`. -/
def startsWithBearer (h : String) : Bool :=
  List.isPrefixOf "Bearer ".data h.data

/-- Python `str.split(' ')`: split on every single space, keeping empty
pieces. -/
def splitSp (cs : List Char) : List (List Char) :=
  match cs with
  | [] => [[]]
  | c :: rest =>
    if c = ' ' then [] :: splitSp rest
    else
      match splitSp rest with
      | [] => [[c]]
      | w :: ws => (c :: w) :: ws

/-- The token extraction `auth_header.split(' ')[1]` (the guard above
guarantees a space, hence a second piece). -/
def tokenOf (h : String) : String :=
  String.mk (((splitSp h.data).drop 1).headD [])

/-- `get_current_user` (`app/routes/plans.py`): require an `Authorization`
header of the form `Bearer <token>`, then resolve the token through the auth
capability.  `resolve` models the whole `try` block around
`get_auth().get_user(token)` — it yields `none` both when no user is found
and when the gateway raises. -/
def get_current_user (resolve : String → Option AuthUser)
    (authHeader : Option String) : Option AuthUser :=
  match authHeader with
  | none => none
  | some h =>
    if startsWithBearer h then resolve (tokenOf h)
    else none

/-- The observable part of a handler response: the HTTP status plus the
`error` field of the JSON body (`none` on success bodies). -/
structure Resp where
  status : Nat
  error : Option String
deriving DecidableEq, Repr

/-- Result of running a handler: the response, the store after all writes,
and the ordered log of entity-accessor invocations. -/
structure HandlerOut where
  resp : Resp
  store : Store
  calls : List String
deriving DecidableEq, Repr

/-- The ownership-check pattern shared by every plan-scoped handler except
the single-plan GET: `if not plan or plan['user_id'] != user.id` merges a
missing plan and an ownership mismatch into one outcome. -/
def ownPlanCheck (s : Store) (pid : String) (uid : String) : Option Rec :=
  match Plan.get_by_id s (Val.str pid) with
  | none => none
  | some plan =>
    if rget plan "user_id" = some (Val.str uid) then some plan else none

/-- The `Plan not found or unauthorized` 404 produced by that shared check. -/
def planNotFoundOut (s : Store) : HandlerOut :=
  { resp := { status := Codes.NOT_FOUND, error := some "Plan not found or unauthorized" },
    store := s, calls := ["Plan.get_by_id"] }

/-- The 401 produced when the authorization guard resolves no identity. -/
def unauthorizedOut (s : Store) : HandlerOut :=
  { resp := { status := Codes.UNAUTHORISED_ACCESS, error := some "Unauthorized" },
    store := s, calls := [] }

/-- A validation-error (or downstream-error) response with no store change. -/
def errOut (s : Store) (code : Nat) (msg : String) (calls : List String) :
    HandlerOut :=
  { resp := { status := code, error := some msg }, store := s, calls := calls }

/-- `create_plan` (`POST /`): guard, body and required-field validation,
ISO-date parsing (abstracted as `parseDate`, `none` meaning the `except`
branch), then `Plan.create`.  A truthy non-string `event_date` raises inside
the same `try` in the source and lands in the same 400 branch. -/
def create_plan (resolve : String → Option AuthUser) (authHeader : Option String)
    (parseDate : String → Option String) (newId : Val) (body : Option Rec)
    (s : Store) : HandlerOut :=
  match get_current_user resolve authHeader with
  | none => unauthorizedOut s
  | some user =>
    let data := body.getD []
    if data.isEmpty then errOut s Codes.ERROR "No data provided" []
    else
      let title := (rget data "title").getD Val.null
      let dstr := (rget data "event_date").getD Val.null
      if !truthy title || !truthy dstr then
        errOut s Codes.ERROR "Title and event_date are required" []
      else
        match dstr with
        | .str dv =>
          match parseDate dv with
          | none => errOut s Codes.ERROR "Invalid date format. Use ISO format" []
          | some d =>
            let res := Plan.create s newId (Val.str user.id) title d
              ((rget data "description").getD Val.null)
              ((rget data "location").getD Val.null)
              ((rget data "category_id").getD Val.null)
              ((rget data "budget").getD Val.null)
              ((rget data "guest_count").getD (Val.int 0))
              ((rget data "status").getD (Val.str "planned"))
              ((rget data "is_public").getD (Val.bool false))
            match res.2 with
            | none => errOut res.1 500 "Failed to create plan" ["Plan.create"]
            | some _ =>
              { resp := { status := 201, error := none }, store := res.1,
                calls := ["Plan.create"] }
        | _ => errOut s Codes.ERROR "Invalid date format. Use ISO format" []

/-- `get_plans` (`GET /`): guard, then the user's plans with pagination. -/
def get_plans (resolve : String → Option AuthUser) (authHeader : Option String)
    (limit offset : Nat) (s : Store) : HandlerOut :=
  match get_current_user resolve authHeader with
  | none => unauthorizedOut s
  | some user =>
    let _plans := Plan.get_user_plans s (Val.str user.id) limit offset
    { resp := { status := Codes.SUCCESS, error := none }, store := s,
      calls := ["Plan.get_user_plans"] }

/-- `get_plan` (`GET /<plan_id>`): unlike every other plan-scoped handler,
this one checks existence and ownership separately — a missing plan gives
404 `Plan not found` while a plan owned by someone else gives 403
`Unauthorized to view this plan`. -/
def get_plan (resolve : String → Option AuthUser) (authHeader : Option String)
    (pid : String) (s : Store) : HandlerOut :=
  match get_current_user resolve authHeader with
  | none => unauthorizedOut s
  | some user =>
    match Plan.get_by_id s (Val.str pid) with
    | none => errOut s Codes.NOT_FOUND "Plan not found" ["Plan.get_by_id"]
    | some plan =>
      if rget plan "user_id" ≠ some (Val.str user.id) then
        errOut s 403 "Unauthorized to view this plan" ["Plan.get_by_id"]
      else
        { resp := { status := Codes.SUCCESS, error := none }, store := s,
          calls := ["Plan.get_by_id", "Guest.get_plan_guests"] }

/-- `update_plan` (`PUT /<plan_id>`): shared ownership check, body check,
then `Plan.update` with the raw body as payload. -/
def update_plan (resolve : String → Option AuthUser) (authHeader : Option String)
    (now : String) (pid : String) (body : Option Rec) (s : Store) : HandlerOut :=
  match get_current_user resolve authHeader with
  | none => unauthorizedOut s
  | some user =>
    match ownPlanCheck s pid user.id with
    | none => planNotFoundOut s
    | some _ =>
      let data := body.getD []
      if data.isEmpty then errOut s Codes.ERROR "No update data provided" ["Plan.get_by_id"]
      else
        let res := Plan.update now s (Val.str pid) data
        match res.2 with
        | none => errOut res.1 500 "Failed to update plan" ["Plan.get_by_id", "Plan.update"]
        | some _ =>
          { resp := { status := Codes.SUCCESS, error := none }, store := res.1,
            calls := ["Plan.get_by_id", "Plan.update"] }

/-- `delete_plan` (`DELETE /<plan_id>`): shared ownership check, then
`Plan.delete`. -/
def delete_plan (resolve : String → Option AuthUser) (authHeader : Option String)
    (pid : String) (s : Store) : HandlerOut :=
  match get_current_user resolve authHeader with
  | none => unauthorizedOut s
  | some user =>
    match ownPlanCheck s pid user.id with
    | none => planNotFoundOut s
    | some _ =>
      let res := Plan.delete s (Val.str pid)
      if !res.2 then errOut res.1 500 "Failed to delete plan" ["Plan.get_by_id", "Plan.delete"]
      else
        { resp := { status := Codes.SUCCESS, error := none }, store := res.1,
          calls := ["Plan.get_by_id", "Plan.delete"] }

/-- The phone-number preprocessing of `add_guest`: when a legacy single
`phone` field is present and no `phone_numbers` list was given, synthesize a
one-entry list; otherwise keep the list from the body (which is passed to the
handler separately because its entries are dicts, not scalars). -/
def processPhones (data : Rec) (bodyPhones : List Rec) : List Rec :=
  if truthy ((rget data "phone").getD Val.null) && bodyPhones.isEmpty then
    [[("number", (rget data "phone").getD Val.null),
      ("type", Val.str "mobile"), ("is_primary", Val.bool true)]]
  else bodyPhones

/-- `add_guest` (`POST /<plan_id>/guests`): guard, shared ownership check,
body and name validation, phone preprocessing and validation, `Guest.create`,
then the denormalized counter update
`Plan.update(plan_id, {'guest_count': plan['guest_count'] + 1})` (whose
result is discarded).  A missing or non-integer `guest_count` on the plan
row would raise `KeyError`/`TypeError` out of the handler, which the
framework turns into a generic 500. -/
def add_guest (resolve : String → Option AuthUser) (authHeader : Option String)
    (now : String) (newGuestId : Val) (pid : String) (body : Option Rec)
    (bodyPhones : List Rec) (s : Store) : HandlerOut :=
  match get_current_user resolve authHeader with
  | none => unauthorizedOut s
  | some user =>
    match ownPlanCheck s pid user.id with
    | none => planNotFoundOut s
    | some plan =>
      let data := body.getD []
      if data.isEmpty then errOut s Codes.ERROR "No guest data provided" ["Plan.get_by_id"]
      else if !truthy ((rget data "name").getD Val.null) then
        errOut s Codes.ERROR "Guest name is required" ["Plan.get_by_id"]
      else
        let pns := processPhones data bodyPhones
        if pns.any (fun ph => !truthy ((rget ph "number").getD Val.null)) then
          errOut s Codes.ERROR "Phone number is required in phone_numbers" ["Plan.get_by_id"]
        else
          let res := Guest.create s newGuestId (Val.str pid)
            ((rget data "name").getD Val.null)
            ((rget data "email").getD Val.null)
            ((rget data "phone").getD Val.null)
            ((rget data "rsvp_status").getD (Val.str "pending"))
            ((rget data "additional_notes").getD Val.null) pns
          match res.2 with
          | none => errOut res.1 500 "Failed to add guest" ["Plan.get_by_id", "Guest.create"]
          | some _ =>
            match rget plan "guest_count" with
            | some (.int n) =>
              let res2 := Plan.update now res.1 (Val.str pid)
                [("guest_count", Val.int (n + 1))]
              { resp := { status := 201, error := none }, store := res2.1,
                calls := ["Plan.get_by_id", "Guest.create", "Plan.update"] }
            | _ => errOut res.1 500 "Internal Server Error" ["Plan.get_by_id", "Guest.create"]

/-- `get_guests` (`GET /<plan_id>/guests`): guard, shared ownership check,
then the guest list (the RSVP histogram it also computes is part of the
success body and does not affect state or status). -/
def get_guests (resolve : String → Option AuthUser) (authHeader : Option String)
    (pid : String) (s : Store) : HandlerOut :=
  match get_current_user resolve authHeader with
  | none => unauthorizedOut s
  | some user =>
    match ownPlanCheck s pid user.id with
    | none => planNotFoundOut s
    | some _ =>
      let _guests := Guest.get_plan_guests s (Val.str pid)
      { resp := { status := Codes.SUCCESS, error := none }, store := s,
        calls := ["Plan.get_by_id", "Guest.get_plan_guests"] }

/-- `get_guest` (`GET /<plan_id>/guests/<guest_id>`): the only guest
sub-route that, after the shared plan-ownership check, also verifies that the
fetched guest belongs to the plan in the path (with a 400 on mismatch). -/
def get_guest (resolve : String → Option AuthUser) (authHeader : Option String)
    (pid gid : String) (s : Store) : HandlerOut :=
  match get_current_user resolve authHeader with
  | none => unauthorizedOut s
  | some user =>
    match ownPlanCheck s pid user.id with
    | none => planNotFoundOut s
    | some _ =>
      match Guest.get_by_id s (Val.str gid) with
      | none => errOut s Codes.NOT_FOUND "Guest not found" ["Plan.get_by_id", "Guest.get_by_id"]
      | some gv =>
        if rget gv.1 "plan_id" ≠ some (Val.str pid) then
          errOut s Codes.ERROR "Guest does not belong to this plan"
            ["Plan.get_by_id", "Guest.get_by_id"]
        else
          { resp := { status := Codes.SUCCESS, error := none }, store := s,
            calls := ["Plan.get_by_id", "Guest.get_by_id"] }

/-- `update_guest` (`PUT /<plan_id>/guests/<guest_id>`): guard, shared
plan-ownership check, body presence check, then `Guest.update` with the raw
body as payload — no field validation and no check that the guest belongs to
the plan in the path. -/
def update_guest (resolve : String → Option AuthUser) (authHeader : Option String)
    (pid gid : String) (body : Option Rec) (s : Store) : HandlerOut :=
  match get_current_user resolve authHeader with
  | none => unauthorizedOut s
  | some user =>
    match ownPlanCheck s pid user.id with
    | none => planNotFoundOut s
    | some _ =>
      let data := body.getD []
      if data.isEmpty then errOut s Codes.ERROR "No update data provided" ["Plan.get_by_id"]
      else
        let res := Guest.update s (Val.str gid) data
        match res.2 with
        | none => errOut res.1 500 "Failed to update guest" ["Plan.get_by_id", "Guest.update"]
        | some _ =>
          { resp := { status := Codes.SUCCESS, error := none }, store := res.1,
            calls := ["Plan.get_by_id", "Guest.update"] }

/-- `delete_guest` (`DELETE /<plan_id>/guests/<guest_id>`): guard, shared
plan-ownership check (the guest's own plan membership is never checked),
`Guest.delete`, then the floored counter update
`Plan.update(plan_id, {'guest_count': max(0, plan['guest_count'] - 1)})`. -/
def delete_guest (resolve : String → Option AuthUser) (authHeader : Option String)
    (now : String) (pid gid : String) (s : Store) : HandlerOut :=
  match get_current_user resolve authHeader with
  | none => unauthorizedOut s
  | some user =>
    match ownPlanCheck s pid user.id with
    | none => planNotFoundOut s
    | some plan =>
      let res := Guest.delete s (Val.str gid)
      if !res.2 then errOut res.1 500 "Failed to delete guest" ["Plan.get_by_id", "Guest.delete"]
      else
        match rget plan "guest_count" with
        | some (.int n) =>
          let res2 := Plan.update now res.1 (Val.str pid)
            [("guest_count", Val.int (max 0 (n - 1)))]
          { resp := { status := Codes.SUCCESS, error := none }, store := res2.1,
            calls := ["Plan.get_by_id", "Guest.delete", "Plan.update"] }
        | _ => errOut res.1 500 "Internal Server Error" ["Plan.get_by_id", "Guest.delete"]

/-- The membership test `rsvp_status not in ['pending', 'confirmed',
'declined', 'maybe']` combined with the truthiness test of the guard
(`not rsvp_status or ...`): only these four strings pass. -/
def rsvpOk : Val → Bool
  | .str sv => sv == "pending" || sv == "confirmed" || sv == "declined" || sv == "maybe"
  | _ => false

/-- `update_guest_rsvp` (`PUT /<plan_id>/guests/<guest_id>/rsvp`): guard,
shared plan-ownership check, then `data.get('rsvp_status')` with no
body-presence guard (an absent JSON body raises `AttributeError` in the
source, surfacing as a framework 500), the RSVP-value validation, and
`Guest.update_rsvp`. -/
def update_guest_rsvp (resolve : String → Option AuthUser)
    (authHeader : Option String) (pid gid : String) (body : Option Rec)
    (s : Store) : HandlerOut :=
  match get_current_user resolve authHeader with
  | none => unauthorizedOut s
  | some user =>
    match ownPlanCheck s pid user.id with
    | none => planNotFoundOut s
    | some _ =>
      match body with
      | none => errOut s 500 "Internal Server Error" ["Plan.get_by_id"]
      | some data =>
        match (rget data "rsvp_status").getD Val.null with
        | .str sv =>
          if sv == "pending" || sv == "confirmed" || sv == "declined" || sv == "maybe" then
            let res := Guest.update_rsvp s (Val.str gid) sv
            match res.2 with
            | none => errOut res.1 500 "Failed to update RSVP" ["Plan.get_by_id", "Guest.update_rsvp"]
            | some _ =>
              { resp := { status := Codes.SUCCESS, error := none }, store := res.1,
                calls := ["Plan.get_by_id", "Guest.update_rsvp"] }
          else errOut s Codes.ERROR "Valid RSVP status required" ["Plan.get_by_id"]
        | _ => errOut s Codes.ERROR "Valid RSVP status required" ["Plan.get_by_id"]

/-- `send_invitation` (`POST /<plan_id>/guests/<guest_id>/invite`): guard,
shared plan-ownership check, then `Guest.mark_invitation_sent` — again with
no check that the guest belongs to the plan in the path. -/
def send_invitation (resolve : String → Option AuthUser)
    (authHeader : Option String) (now : String) (pid gid : String) (s : Store) :
    HandlerOut :=
  match get_current_user resolve authHeader with
  | none => unauthorizedOut s
  | some user =>
    match ownPlanCheck s pid user.id with
    | none => planNotFoundOut s
    | some _ =>
      let res := Guest.mark_invitation_sent now s (Val.str gid)
      match res.2 with
      | none => errOut res.1 500 "Failed to mark invitation" ["Plan.get_by_id", "Guest.mark_invitation_sent"]
      | some _ =>
        { resp := { status := Codes.SUCCESS, error := none }, store := res.1,
          calls := ["Plan.get_by_id", "Guest.mark_invitation_sent"] }

/-- `add_guest_phone` (`POST /<plan_id>/guests/<guest_id>/phones`): guard,
shared plan-ownership check, `phone_number` validation, then
`Guest.add_phone_numbers` with a one-entry list — no check that the guest
belongs to the plan in the path. -/
def add_guest_phone (resolve : String → Option AuthUser)
    (authHeader : Option String) (pid gid : String) (body : Option Rec)
    (s : Store) : HandlerOut :=
  match get_current_user resolve authHeader with
  | none => unauthorizedOut s
  | some user =>
    match ownPlanCheck s pid user.id with
    | none => planNotFoundOut s
    | some _ =>
      let data := body.getD []
      if !truthy ((rget data "phone_number").getD Val.null) then
        errOut s Codes.ERROR "Phone number is required" ["Plan.get_by_id"]
      else
        let phone_data : List Rec :=
          [[("number", (rget data "phone_number").getD Val.null),
            ("type", (rget data "phone_type").getD (Val.str "mobile")),
            ("is_primary", (rget data "is_primary").getD (Val.bool false))]]
        let res := Guest.add_phone_numbers s (Val.str gid) phone_data
        if res.2.isEmpty then
          errOut res.1 500 "Failed to add phone number" ["Plan.get_by_id", "Guest.add_phone_numbers"]
        else
          { resp := { status := 201, error := none }, store := res.1,
            calls := ["Plan.get_by_id", "Guest.add_phone_numbers"] }

/-- `create_task` (`POST /<plan_id>/tasks`): guard, shared ownership check,
body and title validation, optional due-date parsing, `EventTask.create_task`. -/
def create_task (resolve : String → Option AuthUser) (authHeader : Option String)
    (parseDate : String → Option String) (newId : Val) (pid : String)
    (body : Option Rec) (s : Store) : HandlerOut :=
  match get_current_user resolve authHeader with
  | none => unauthorizedOut s
  | some user =>
    match ownPlanCheck s pid user.id with
    | none => planNotFoundOut s
    | some _ =>
      let data := body.getD []
      if data.isEmpty then errOut s Codes.ERROR "No task data provided" ["Plan.get_by_id"]
      else if !truthy ((rget data "title").getD Val.null) then
        errOut s Codes.ERROR "Task title is required" ["Plan.get_by_id"]
      else
        let dueRaw := (rget data "due_date").getD Val.null
        let parsed : Option (Option String) :=
          if truthy dueRaw then
            match dueRaw with
            | .str dv =>
              match parseDate dv with
              | none => none
              | some d => some (some d)
            | _ => none
          else some none
        match parsed with
        | none => errOut s Codes.ERROR "Invalid due_date format" ["Plan.get_by_id"]
        | some due =>
          let res := EventTask.create_task s newId (Val.str pid)
            ((rget data "title").getD Val.null)
            ((rget data "description").getD Val.null)
            (match due with | some d => Val.str d | none => Val.null)
            ((rget data "priority").getD (Val.str "medium"))
            ((rget data "assigned_to").getD Val.null)
          match res.2 with
          | none => errOut res.1 500 "Failed to create task" ["Plan.get_by_id", "EventTask.create_task"]
          | some _ =>
            { resp := { status := 201, error := none }, store := res.1,
              calls := ["Plan.get_by_id", "EventTask.create_task"] }

/-- The aggregate computed by `get_stats` over the fetched plan list. -/
structure Stats where
  total_plans : Nat
  upcoming_plans : Nat
  completed_plans : Nat
  total_guests : Int
  by_category : List (String × Nat)
deriving DecidableEq, Repr

/-- One step of the category histogram:
`stats['by_category'][key] = stats['by_category'].get(key, 0) + 1`. -/
def bumpKey (m : List (String × Nat)) (k : String) : List (String × Nat) :=
  if m.any (fun p => decide (p.1 = k)) then
    m.map (fun p => if p.1 = k then (p.1, p.2 + 1) else p)
  else m ++ [(k, 1)]

/-- The `by_category` loop of `get_stats`: count each fetched plan under
`str(category_id)` when the id is truthy (`if category:`). -/
def byCategoryOf (plans : List Rec) : List (String × Nat) :=
  plans.foldl (fun m p =>
    let c := (rget p "category_id").getD Val.null
    if truthy c then bumpKey m (pyStr c) else m) []

/-- The integer read by `p.get('guest_count', 0)` in the `total_guests` sum
(a non-integer value would raise `TypeError` in the source; plan rows carry
integer counts). -/
def guestCountOf (p : Rec) : Int :=
  match (rget p "guest_count").getD (Val.int 0) with
  | .int n => n
  | _ => 0

/-- The stats dict built by `get_stats` from the fetched plan list. -/
def statsCalc (plans : List Rec) : Stats :=
  { total_plans := plans.length
    upcoming_plans := (plans.filter (fun p => decide (rget p "status" = some (Val.str "planned")))).length
    completed_plans := (plans.filter (fun p => decide (rget p "status" = some (Val.str "completed")))).length
    total_guests := (plans.map guestCountOf).sum
    by_category := byCategoryOf plans }

/-- `get_stats` (`GET /stats`): guard, fetch up to 1000 of the user's plans
(`Plan.get_user_plans(user.id, limit=1000)`, offset 0), and aggregate them in
memory. -/
def get_stats (resolve : String → Option AuthUser) (authHeader : Option String)
    (s : Store) : HandlerOut × Option Stats :=
  match get_current_user resolve authHeader with
  | none => (unauthorizedOut s, none)
  | some user =>
    let plans := Plan.get_user_plans s (Val.str user.id) 1000 0
    ({ resp := { status := Codes.SUCCESS, error := none }, store := s,
       calls := ["Plan.get_user_plans"] }, some (statsCalc plans))

/-!
Exception model of the accessor layer.  Each gateway call (`...execute()`)
either returns row data or raises; an accessor body runs in `Except String`
and the `try/except` that wraps every accessor method in
`app/models/*.py` is the `tryE` combinator, which converts any raised
exception into the method's fallback value.
-/

/-- Outcome of one gateway call: the `data` rows, or a raised exception. -/
abbrev GwOut := Except String (List Rec)

/-- The `try: ... except: return fallback` wrapper shared by every accessor
method. -/
def tryE {α : Type} (body : Except String α) (fallback : α) : Except String α :=
  match body with
  | .ok a => .ok a
  | .error _ => .ok fallback

namespace PlanX

/-- `Plan.create` under the exception model: one insert call; the `except`
branch falls off the end of the function, returning `None`. -/
def create (gw : GwOut) : Except String (Option Rec) :=
  tryE (do pure (← gw).head?) none

/-- `Plan.get_by_id` under the exception model. -/
def get_by_id (gw : GwOut) : Except String (Option Rec) :=
  tryE (do pure (← gw).head?) none

/-- `Plan.get_user_plans` under the exception model. -/
def get_user_plans (gw : GwOut) : Except String (List Rec) :=
  tryE (do pure (← gw)) []

/-- `Plan.update` under the exception model. -/
def update (gw : GwOut) : Except String (Option Rec) :=
  tryE (do pure (← gw).head?) none

/-- `Plan.delete` under the exception model: `len(response.data) > 0`. -/
def delete (gw : GwOut) : Except String Bool :=
  tryE (do pure (!(← gw).isEmpty)) false

end PlanX

namespace GuestX

/-- `Guest.add_phone_numbers` under the exception model: build the entries
(pure) and batch-insert them in one call. -/
def add_phone_numbers (gid : Val) (phones : List Rec) (gw : GwOut) :
    Except String (List Rec) :=
  tryE (do
    let _entries := phones.map (fun ph =>
      [("guest_id", gid),
       ("phone_number", (rget ph "number").getD Val.null),
       ("phone_type", (rget ph "type").getD (Val.str "mobile")),
       ("is_primary", (rget ph "is_primary").getD (Val.bool false))])
    pure (← gw)) []

/-- `Guest.get_by_id` under the exception model: the guest query, then — only
when a guest was found — the phone query. -/
def get_by_id (gwGuest gwPhones : GwOut) : Except String (Option Guest.View) :=
  tryE (do
    match (← gwGuest).head? with
    | none => pure none
    | some g => do pure (some (g, ← gwPhones))) none

/-- `Guest.create` under the exception model: insert the guest; on a row,
add the supplied phones when non-empty (itself exception-safe) and re-fetch
through `Guest.get_by_id` (also exception-safe); all inside one outer `try`. -/
def create (phones : List Rec) (gwIns gwPhIns gwGet gwGetPh : GwOut) :
    Except String (Option Guest.View) :=
  tryE (do
    match (← gwIns).head? with
    | none => pure none
    | some g => do
      let _ ← (if phones.isEmpty then pure []
               else add_phone_numbers ((rget g "id").getD Val.null) phones gwPhIns)
      get_by_id gwGet gwGetPh) none

/-- `Guest.get_plan_guests` under the exception model: the guest query, then
— only when guests were found — one batched phone query grouped per guest. -/
def get_plan_guests (gwGuests gwPhones : GwOut) :
    Except String (List Guest.View) :=
  tryE (do
    let gs ← gwGuests
    if gs.isEmpty then pure (gs.map (fun g => (g, [])))
    else do
      let phones ← gwPhones
      pure (gs.map (fun g => (g, phones.filter
        (fun ph => rget ph "guest_id" == rget g "id"))))) []

/-- `Guest.update` under the exception model: the update call, then — only
when rows were echoed — the `Guest.get_by_id` re-fetch. -/
def update (gwUpd gwGet gwGetPh : GwOut) : Except String (Option Guest.View) :=
  tryE (do
    if (← gwUpd).isEmpty then pure none
    else get_by_id gwGet gwGetPh) none

/-- `Guest.update_rsvp` delegates to `Guest.update`. -/
def update_rsvp (gwUpd gwGet gwGetPh : GwOut) : Except String (Option Guest.View) :=
  update gwUpd gwGet gwGetPh

/-- `Guest.mark_invitation_sent` delegates to `Guest.update`. -/
def mark_invitation_sent (gwUpd gwGet gwGetPh : GwOut) :
    Except String (Option Guest.View) :=
  update gwUpd gwGet gwGetPh

/-- `Guest.delete` under the exception model. -/
def delete (gw : GwOut) : Except String Bool :=
  tryE (do pure (!(← gw).isEmpty)) false

/-- The per-guest phone loop of `Guest.search_by_phone`: one phone query per
matched guest, any of which may raise. -/
def attachEach (gwEach : Nat → GwOut) : Nat → List Rec →
    Except String (List Guest.View)
  | _, [] => pure []
  | i, g :: rest => do
    let ph ← gwEach i
    let tail ← attachEach gwEach (i + 1) rest
    pure ((g, ph) :: tail)

/-- `Guest.search_by_phone` under the exception model: phone-row query,
guest-id extraction, guest query, then the unbatched per-guest phone loop. -/
def search_by_phone (gwPh gwGuests : GwOut) (gwEach : Nat → GwOut) :
    Except String (List Guest.View) :=
  tryE (do
    let phRows ← gwPh
    let ids := phRows.filterMap (fun ph => rget ph "guest_id")
    if ids.isEmpty then pure []
    else do
      let gs ← gwGuests
      attachEach gwEach 0 gs) []

end GuestX

namespace GuestRelationshipX

/-- `GuestRelationship.create_relationship` under the exception model. -/
def create_relationship (gw : GwOut) : Except String (Option Rec) :=
  tryE (do pure (← gw).head?) none

/-- `GuestRelationship.get_guest_relationships` under the exception model:
two queries (guest as primary, guest as related), concatenated. -/
def get_guest_relationships (gw1 gw2 : GwOut) : Except String (List Rec) :=
  tryE (do pure ((← gw1) ++ (← gw2))) []

end GuestRelationshipX

namespace EventTaskX

/-- `EventTask.create_task` under the exception model. -/
def create_task (gw : GwOut) : Except String (Option Rec) :=
  tryE (do pure (← gw).head?) none

end EventTaskX

namespace EventCategoryX

/-- `EventCategory.get_all` under the exception model. -/
def get_all (gw : GwOut) : Except String (List Rec) :=
  tryE (do pure (← gw)) []

/-- `EventCategory.get_by_id` under the exception model. -/
def get_by_id (gw : GwOut) : Except String (Option Rec) :=
  tryE (do pure (← gw).head?) none

end EventCategoryX

/-- Reading the histogram dict built by `get_stats`:
`stats['by_category'].get(key, 0)`. -/
def lookupCount : List (String × Nat) → String → Nat
  | [], _ => 0
  | p :: rest, k => if p.1 = k then p.2 else lookupCount rest k

/-- Histogram count following the claim's words (for comparison with the
code's histogram): fetched plans counted per NON-NULL category id — a present
`category_id` different from `null`, with no further condition. -/
def specByCategoryCount (plans : List Rec) (key : String) : Nat :=
  plans.countP (fun p =>
    match rget p "category_id" with
    | some c => !decide (c = Val.null) && decide (pyStr c = key)
    | none => false)

/-- Histogram count as the code computes it: fetched plans counted per TRUTHY
category id (`if category:` in the source — null, `0`, `False` and the empty
string are all skipped). -/
def truthyCategoryCount (plans : List Rec) (key : String) : Nat :=
  plans.countP (fun p =>
    truthy ((rget p "category_id").getD Val.null) &&
      decide (pyStr ((rget p "category_id").getD Val.null) = key))

/-!
Concrete fixtures used by witnesses and counterexamples.
-/

/-- A concrete authenticated user. -/
def user1 : AuthUser := { id := "u1", email := "u1@example.com" }

/-- A concrete token resolver: the token `tok1` resolves to `user1`. -/
def resolve1 : String → Option AuthUser :=
  fun t => if t = "tok1" then some user1 else none

/-- The matching bearer header. -/
def header1 : Option String := some "Bearer tok1"

/-- A plan row owned by a different user (`owner2`). -/
def planOther : Rec :=
  [("id", Val.str "p1"), ("user_id", Val.str "owner2"),
   ("guest_count", Val.int 0), ("status", Val.str "planned")]

/-- A plan row owned by `user1`, with three guests counted. -/
def planMine : Rec :=
  [("id", Val.str "p1"), ("user_id", Val.str "u1"),
   ("guest_count", Val.int 3), ("status", Val.str "planned")]

/-- A guest row that belongs to plan `p2`, not `p1`. -/
def guestCross : Rec :=
  [("id", Val.str "g1"), ("plan_id", Val.str "p2"),
   ("name", Val.str "Bob"), ("rsvp_status", Val.str "pending")]

/-- A guest row that belongs to plan `p1`. -/
def guestHome : Rec :=
  [("id", Val.str "g1"), ("plan_id", Val.str "p1"),
   ("name", Val.str "Bob"), ("rsvp_status", Val.str "pending")]

/-- The empty store. -/
def store0 : Store := { plans := [], guests := [], guest_phones := [], tasks := [] }

/-- A store holding only another user's plan. -/
def storeOther : Store :=
  { plans := [planOther], guests := [], guest_phones := [], tasks := [] }

/-- A store holding `user1`'s plan and no guests. -/
def storeMine : Store :=
  { plans := [planMine], guests := [], guest_phones := [], tasks := [] }

/-- A store holding `user1`'s plan `p1` and a guest of the foreign plan `p2`. -/
def storeCross : Store :=
  { plans := [planMine], guests := [guestCross], guest_phones := [], tasks := [] }

/-- A store holding `user1`'s plan `p1` and a guest belonging to it. -/
def storeHome : Store :=
  { plans := [planMine], guests := [guestHome], guest_phones := [], tasks := [] }

/-- A plan of `user1` whose category id is the integer `0` — non-null but
falsy in Python. -/
def planCatZero : Rec :=
  [("id", Val.str "p1"), ("user_id", Val.str "u1"), ("guest_count", Val.int 2),
   ("status", Val.str "planned"), ("category_id", Val.int 0)]

/-- A store holding only `planCatZero`. -/
def storeCatZero : Store :=
  { plans := [planCatZero], guests := [], guest_phones := [], tasks := [] }

/-!
Record-algebra lemmas: how `rget`, `rset`, `applyUpdates` and the table
operations interact.
-/

lemma rget_append (a b : Rec) (k : String) :
    rget (a ++ b) k = match rget a k with | some v => some v | none => rget b k := by
  induction a with
  | nil => simp [rget]
  | cons p rest ih =>
    by_cases h : p.1 = k <;> simp [rget, h, ih]

lemma rget_none_not_mem (r : Rec) (k : String) (h : rget r k = none) :
    ∀ p ∈ r, p.1 ≠ k := by
  induction r with
  | nil => simp
  | cons q rest ih =>
    by_cases hq : q.1 = k
    · simp [rget, hq] at h
    · simp [rget, hq] at h
      intro p hp
      rw [List.mem_cons] at hp
      rcases hp with hp | hp
      · rw [hp]
        exact hq
      · exact ih h p hp

lemma rget_map_overwrite_ne (r : Rec) (k k' : String) (v : Val) (hne : k' ≠ k) :
    rget (r.map (fun p => if p.1 = k then (k, v) else p)) k' = rget r k' := by
  induction r with
  | nil => simp [rget]
  | cons p rest ih =>
    by_cases h : p.1 = k
    · simp [rget, h, Ne.symm hne, ih]
    · simp only [List.map_cons, if_neg h]
      by_cases h2 : p.1 = k' <;> simp [rget, h2, ih]

lemma rget_map_overwrite_self (r : Rec) (k : String) (v : Val) :
    rget (r.map (fun p => if p.1 = k then (k, v) else p)) k =
      if (rget r k).isSome then some v else none := by
  induction r with
  | nil => simp [rget]
  | cons p rest ih =>
    by_cases h : p.1 = k <;> simp [rget, h, ih]

lemma rget_rset (r : Rec) (k : String) (v : Val) (k' : String) :
    rget (rset r k v) k' = if k' = k then some v else rget r k' := by
  unfold rset
  cases hk : rget r k with
  | none =>
    simp only [hk, Option.isSome_none, Bool.false_eq_true, if_false]
    rw [rget_append]
    by_cases h : k' = k
    · subst h
      simp [hk, rget]
    · cases hr : rget r k' <;> simp [hr, rget, h, Ne.symm h]
  | some w =>
    simp only [hk, Option.isSome_some, if_true]
    by_cases h : k' = k
    · subst h
      rw [rget_map_overwrite_self, hk]
      simp
    · rw [rget_map_overwrite_ne r k k' v h]
      simp [h]

lemma rget_applyUpdates (u : Rec) (r : Rec) (k : String) :
    rget (applyUpdates r u) k =
      match ulast u k with | some v => some v | none => rget r k := by
  induction u generalizing r with
  | nil => simp [applyUpdates, ulast]
  | cons q rest ih =>
    show rget (applyUpdates (rset r q.1 q.2) rest) k = _
    rw [ih]
    cases hr : ulast rest k
    · simp only [ulast, hr]
      rw [rget_rset]
      by_cases h : k = q.1
      · simp [h]
      · simp [h, Ne.symm h]
    · simp [ulast, hr]

lemma ulast_append (a b : Rec) (k : String) :
    ulast (a ++ b) k =
      match ulast b k with | some v => some v | none => ulast a k := by
  induction a with
  | nil => cases h : ulast b k <;> simp [ulast, h]
  | cons p rest ih =>
    show ulast (p :: (rest ++ b)) k = _
    simp only [ulast, ih]
    cases h : ulast b k <;> cases h' : ulast rest k <;> simp [h, h']

lemma ulast_none_iff_rget_none (u : Rec) (k : String) :
    ulast u k = none ↔ rget u k = none := by
  induction u with
  | nil => simp [ulast, rget]
  | cons p rest ih =>
    by_cases h : p.1 = k
    · cases h' : ulast rest k <;> simp [ulast, rget, h, h']
    · cases h' : ulast rest k
      · simp [ulast, rget, h, h', ih.1 h']
      · have hr : ¬rget rest k = none := fun hn => by simp [ih.2 hn] at h'
        simp [ulast, rget, h, h', hr]

lemma ulast_map_overwrite_ne (r : Rec) (k k' : String) (v : Val) (hne : k' ≠ k) :
    ulast (r.map (fun p => if p.1 = k then (k, v) else p)) k' = ulast r k' := by
  induction r with
  | nil => simp
  | cons p rest ih =>
    by_cases h : p.1 = k <;> cases h' : ulast rest k' <;>
      simp [List.map_cons, ulast, ih, h, h', Ne.symm hne]

lemma ulast_map_overwrite_self (r : Rec) (k : String) (v : Val) :
    ulast (r.map (fun p => if p.1 = k then (k, v) else p)) k =
      if (rget r k).isSome then some v else none := by
  induction r with
  | nil => simp [ulast, rget]
  | cons p rest ih =>
    by_cases h : p.1 = k <;> cases hrest : rget rest k <;>
      simp [hrest] at ih <;> simp [List.map_cons, ulast, rget, h, hrest, ih]

lemma ulast_rset (u : Rec) (k : String) (v : Val) (k' : String) :
    ulast (rset u k v) k' = if k' = k then some v else ulast u k' := by
  unfold rset
  cases hk : rget u k with
  | none =>
    simp only [hk, Option.isSome_none, Bool.false_eq_true, if_false]
    rw [ulast_append]
    by_cases h : k' = k
    · subst h
      simp [ulast]
    · simp [ulast, h, Ne.symm h]
  | some w =>
    simp only [hk, Option.isSome_some, if_true]
    by_cases h : k' = k
    · subst h
      rw [ulast_map_overwrite_self, hk]
      simp
    · rw [ulast_map_overwrite_ne u k k' v h]
      simp [h]

lemma mem_ulast_isSome (u : Rec) (p : String × Val) (hp : p ∈ u) :
    (ulast u p.1).isSome := by
  induction u with
  | nil => simp at hp
  | cons q rest ih =>
    rw [List.mem_cons] at hp
    rcases hp with hp | hp
    · subst hp
      cases h' : ulast rest p.1 <;> simp [ulast, h']
    · cases h' : ulast rest p.1
      · have h2 := ih hp
        simp [h'] at h2
      · simp [ulast, h']

lemma map_eq_self_of {α : Type} (l : List α) (f : α → α) (h : ∀ x ∈ l, f x = x) :
    l.map f = l := by
  induction l with
  | nil => simp
  | cons x rest ih =>
    simp only [List.map_cons, h x (by simp), ih (fun y hy => h y (by simp [hy]))]

lemma applyUpdates_allPresent (u : Rec) (r : Rec)
    (h : ∀ p ∈ u, (rget r p.1).isSome) :
    applyUpdates r u =
      r.map (fun p => match ulast u p.1 with | some v => (p.1, v) | none => p) := by
  induction u generalizing r with
  | nil =>
    simp only [applyUpdates, ulast]
    exact (map_eq_self_of r _ (fun p _ => rfl)).symm
  | cons q rest ih =>
    show applyUpdates (rset r q.1 q.2) rest = _
    have hq : (rget r q.1).isSome := h q (by simp)
    have hrset : rset r q.1 q.2 = r.map (fun p => if p.1 = q.1 then (q.1, q.2) else p) := by
      unfold rset
      rw [if_pos hq]
    have hkeys : ∀ p ∈ rest, (rget (rset r q.1 q.2) p.1).isSome := by
      intro p hp
      rw [rget_rset]
      by_cases hpq : p.1 = q.1
      · simp [hpq]
      · simp only [if_neg hpq]
        exact h p (by simp [hp])
    rw [ih _ hkeys, hrset, List.map_map]
    apply List.map_congr_left
    intro p _
    by_cases hp : p.1 = q.1
    · cases h' : ulast rest q.1 <;>
        simp [Function.comp, ulast, hp, h']
    · cases h' : ulast rest p.1 <;>
        simp [Function.comp, ulast, hp, h', Ne.symm hp]

lemma rset_valAt (r : Rec) (k : String) (v : Val) :
    ∀ p' ∈ rset r k v, p'.1 = k → p'.2 = v := by
  unfold rset
  cases hk : rget r k with
  | none =>
    simp only [hk, Option.isSome_none, Bool.false_eq_true, if_false]
    intro p' hp' hkey
    rw [List.mem_append] at hp'
    rcases hp' with hp' | hp'
    · exact absurd hkey (rget_none_not_mem r k hk p' hp')
    · simp at hp'
      rw [hp']
  | some w =>
    simp only [hk, Option.isSome_some, if_true]
    intro p' hp' hkey
    rw [List.mem_map] at hp'
    rcases hp' with ⟨p, _, hp⟩
    by_cases hpk : p.1 = k
    · rw [← hp]
      simp [hpk]
    · rw [← hp] at hkey ⊢
      simp only [if_neg hpk] at hkey ⊢
      exact absurd hkey hpk

lemma rset_mem (r : Rec) (k : String) (v : Val) :
    ∀ p' ∈ rset r k v, p'.1 ≠ k → p' ∈ r := by
  unfold rset
  cases hk : rget r k with
  | none =>
    simp only [hk, Option.isSome_none, Bool.false_eq_true, if_false]
    intro p' hp' hkey
    rw [List.mem_append] at hp'
    rcases hp' with hp' | hp'
    · exact hp'
    · simp at hp'
      rw [hp'] at hkey
      simp at hkey
  | some w =>
    simp only [hk, Option.isSome_some, if_true]
    intro p' hp' hkey
    rw [List.mem_map] at hp'
    rcases hp' with ⟨p, hpmem, hp⟩
    by_cases hpk : p.1 = k
    · rw [← hp] at hkey
      simp [hpk] at hkey
    · rw [← hp]
      simp only [if_neg hpk]
      exact hpmem

lemma applyUpdates_keyFree (u : Rec) (k : String) (hu : ulast u k = none) :
    ∀ r : Rec, ∀ p' ∈ applyUpdates r u, p'.1 = k → p' ∈ r := by
  induction u with
  | nil =>
    intro r p' hp' _
    exact hp'
  | cons q rest ih =>
    have hqrest : ulast rest k = none := by
      cases h' : ulast rest k
      · rfl
      · simp [ulast, h'] at hu
    have hqk : q.1 ≠ k := by
      intro hq
      simp [ulast, hqrest, hq] at hu
    intro r p' hp' hkey
    have hp2 : p' ∈ rset r q.1 q.2 := ih hqrest (rset r q.1 q.2) p' hp' hkey
    exact rset_mem r q.1 q.2 p' hp2 (by rw [hkey]; exact Ne.symm hqk)

lemma applyUpdates_valAt (u : Rec) :
    ∀ r : Rec, ∀ p' ∈ applyUpdates r u, ∀ v, ulast u p'.1 = some v → p'.2 = v := by
  induction u with
  | nil =>
    intro r p' _ v hv
    simp [ulast] at hv
  | cons q rest ih =>
    intro r p' hp' v hv
    cases h' : ulast rest p'.1 with
    | some w =>
      have : v = w := by simp [ulast, h'] at hv; exact hv.symm
      subst this
      exact ih (rset r q.1 q.2) p' hp' v h'
    | none =>
      have hqv : q.1 = p'.1 ∧ v = q.2 := by
        simp only [ulast, h'] at hv
        by_cases hq : q.1 = p'.1
        · simp [hq] at hv
          exact ⟨hq, hv.symm⟩
        · simp [hq] at hv
      have hp2 : p' ∈ rset r q.1 q.2 :=
        applyUpdates_keyFree rest p'.1 h' (rset r q.1 q.2) p' hp' rfl
      rw [hqv.2]
      exact rset_valAt r q.1 q.2 p' hp2 hqv.1.symm

lemma applyUpdates_idem (r u : Rec) :
    applyUpdates (applyUpdates r u) u = applyUpdates r u := by
  have hpres : ∀ p ∈ u, (rget (applyUpdates r u) p.1).isSome := by
    intro p hp
    rw [rget_applyUpdates]
    have hs := mem_ulast_isSome u p hp
    cases h' : ulast u p.1
    · simp [h'] at hs
    · simp [h']
  rw [applyUpdates_allPresent u _ hpres]
  apply map_eq_self_of
  intro p' hp'
  cases h' : ulast u p'.1 with
  | none => rfl
  | some v =>
    have := applyUpdates_valAt u r p' hp' v h'
    simp [← this]

lemma selectEq_append (a b : List Rec) (k : String) (v : Val) :
    selectEq (a ++ b) k v = selectEq a k v ++ selectEq b k v := by
  simp [selectEq, List.filter_append]

lemma deleteEq_append (a b : List Rec) (k : String) (v : Val) :
    deleteEq (a ++ b) k v = deleteEq a k v ++ deleteEq b k v := by
  simp [deleteEq, List.filter_append]

lemma selectEq_nil_not_mem (tbl : List Rec) (k : String) (v : Val)
    (h : selectEq tbl k v = []) : ∀ r ∈ tbl, ¬rget r k = some v := by
  intro r hr
  have := List.filter_eq_nil_iff.1 h r hr
  simpa using this

lemma deleteEq_of_selectEq_nil (tbl : List Rec) (k : String) (v : Val)
    (h : selectEq tbl k v = []) : deleteEq tbl k v = tbl := by
  apply List.filter_eq_self.2
  intro r hr
  simpa using selectEq_nil_not_mem tbl k v h r hr

lemma updateEq_of_selectEq_nil (tbl : List Rec) (k : String) (v : Val) (u : Rec)
    (h : selectEq tbl k v = []) : updateEq tbl k v u = tbl := by
  apply map_eq_self_of
  intro r hr
  rw [if_neg (selectEq_nil_not_mem tbl k v h r hr)]

lemma selectEq_updateEq_of_ulast_none (tbl : List Rec) (k : String) (v : Val)
    (u : Rec) (h : ulast u k = none) :
    selectEq (updateEq tbl k v u) k v =
      (selectEq tbl k v).map (fun r => applyUpdates r u) := by
  induction tbl with
  | nil => simp [selectEq, updateEq]
  | cons r rest ih =>
    by_cases hm : rget r k = some v
    · have hu : rget (applyUpdates r u) k = some v := by
        rw [rget_applyUpdates, h, hm]
      simp [selectEq, updateEq, List.filter_cons, hm, hu] at ih ⊢
      exact ih
    · simp [selectEq, updateEq, List.filter_cons, hm] at ih ⊢
      exact ih

lemma selectEq_updateEq_of_ulast_ne (tbl : List Rec) (k : String) (v w : Val)
    (u : Rec) (h : ulast u k = some w) (hw : w ≠ v) :
    selectEq (updateEq tbl k v u) k v = [] := by
  induction tbl with
  | nil => simp [selectEq, updateEq]
  | cons r rest ih =>
    by_cases hm : rget r k = some v
    · have hu : rget (applyUpdates r u) k = some w := by
        rw [rget_applyUpdates, h]
      simp [selectEq, updateEq, List.filter_cons, hm, hu, hw] at ih ⊢
      exact ih
    · simp [selectEq, updateEq, List.filter_cons, hm] at ih ⊢
      exact ih

lemma updateEq_updateEq (tbl : List Rec) (k : String) (v : Val) (u : Rec) :
    updateEq (updateEq tbl k v u) k v u = updateEq tbl k v u := by
  induction tbl with
  | nil => simp [updateEq]
  | cons r rest ih =>
    simp only [updateEq, List.map_cons] at ih ⊢
    rw [ih]
    by_cases hm : rget r k = some v
    · rw [if_pos hm]
      cases hu : ulast u k with
      | none =>
        have : rget (applyUpdates r u) k = some v := by
          rw [rget_applyUpdates, hu, hm]
        rw [if_pos this, applyUpdates_idem]
      | some w =>
        have hru : rget (applyUpdates r u) k = some w := by
          rw [rget_applyUpdates, hu]
        by_cases hwv : w = v
        · subst hwv
          rw [if_pos hru, applyUpdates_idem]
        · rw [if_neg (by rw [hru]; simp [hwv])]
    · rw [if_neg hm, if_neg hm]

lemma selectEq_updateEq_of_ulast_same (tbl : List Rec) (k : String) (v : Val)
    (u : Rec) (h : ulast u k = some v) :
    selectEq (updateEq tbl k v u) k v =
      (selectEq tbl k v).map (fun r => applyUpdates r u) := by
  induction tbl with
  | nil => simp [selectEq, updateEq]
  | cons r rest ih =>
    by_cases hm : rget r k = some v
    · have hu : rget (applyUpdates r u) k = some v := by
        rw [rget_applyUpdates, h]
      simp [selectEq, updateEq, List.filter_cons, hm, hu] at ih ⊢
      exact ih
    · simp [selectEq, updateEq, List.filter_cons, hm] at ih ⊢
      exact ih

lemma updateEq_cons (r : Rec) (rest : List Rec) (k : String) (v : Val) (u : Rec) :
    updateEq (r :: rest) k v u =
      (if rget r k = some v then applyUpdates r u else r) :: updateEq rest k v u := rfl

lemma Guest_update_idem (s : Store) (gid : Val) (u : Rec) :
    Guest.update (Guest.update s gid u).1 gid u = Guest.update s gid u := by
  cases h1 : selectEq s.guests "id" gid with
  | nil =>
    have hg : updateEq s.guests "id" gid u = s.guests :=
      updateEq_of_selectEq_nil _ _ _ _ h1
    simp [Guest.update, hg, h1]
  | cons g grest =>
    cases hu : ulast u "id" with
    | none =>
      have hsel : selectEq (updateEq s.guests "id" gid u) "id" gid =
          (selectEq s.guests "id" gid).map (fun r => applyUpdates r u) :=
        selectEq_updateEq_of_ulast_none _ _ _ _ hu
      simp [Guest.update, hsel, h1, updateEq_updateEq, Guest.get_by_id]
    | some w =>
      by_cases hw : w = gid
      · have hu2 : ulast u "id" = some gid := by rw [← hw]; exact hu
        have hsel : selectEq (updateEq s.guests "id" gid u) "id" gid =
            (selectEq s.guests "id" gid).map (fun r => applyUpdates r u) :=
          selectEq_updateEq_of_ulast_same _ _ _ _ hu2
        simp [Guest.update, hsel, h1, updateEq_updateEq, Guest.get_by_id]
      · have hsel : selectEq (updateEq s.guests "id" gid u) "id" gid = [] :=
          selectEq_updateEq_of_ulast_ne _ _ _ _ _ hu hw
        simp [Guest.update, hsel, h1, updateEq_updateEq, Guest.get_by_id]

lemma ulast_stamp_id (u : Rec) (t : String) (hid : rget u "id" = none) :
    ulast (rset u "updated_at" (Val.str t)) "id" = none := by
  rw [ulast_rset]
  simp [(ulast_none_iff_rget_none u "id").2 hid]

lemma Plan_update_idem_same_now (now : String) (s : Store) (pid : Val) (u : Rec)
    (hid : rget u "id" = none) :
    Plan.update now (Plan.update now s pid u).1 pid u = Plan.update now s pid u := by
  have hu : ulast (rset u "updated_at" (Val.str now)) "id" = none :=
    ulast_stamp_id u now hid
  have hsel : selectEq (updateEq s.plans "id" pid (rset u "updated_at" (Val.str now)))
      "id" pid = (selectEq s.plans "id" pid).map
        (fun r => applyUpdates r (rset u "updated_at" (Val.str now))) :=
    selectEq_updateEq_of_ulast_none _ _ _ _ hu
  simp only [Plan.update, hsel, updateEq_updateEq, List.map_map]
  refine Prod.ext rfl ?_
  cases hh : selectEq s.plans "id" pid with
  | nil => simp
  | cons a rest => simp [Function.comp, applyUpdates_idem]

lemma rget_applyUpdates_double (r u1 u2 : Rec) (k : String)
    (hsame : ulast u2 k = ulast u1 k) :
    rget (applyUpdates (applyUpdates r u1) u2) k = rget (applyUpdates r u1) k := by
  rw [rget_applyUpdates, rget_applyUpdates u1 r k, hsame]
  cases h : ulast u1 k <;> simp [h]

lemma ulast_stamp_other (u : Rec) (t1 t2 : String) (k : String)
    (hk : k ≠ "updated_at") :
    ulast (rset u "updated_at" (Val.str t2)) k =
      ulast (rset u "updated_at" (Val.str t1)) k := by
  rw [ulast_rset, ulast_rset]
  simp [hk]

lemma Plan_update_twice_result_agree (t1 t2 : String) (s : Store) (pid : Val)
    (u : Rec) (hid : rget u "id" = none) (k : String) (hk : k ≠ "updated_at") :
    ((Plan.update t2 (Plan.update t1 s pid u).1 pid u).2).map (fun r => rget r k) =
      ((Plan.update t1 s pid u).2).map (fun r => rget r k) := by
  have hu1 : ulast (rset u "updated_at" (Val.str t1)) "id" = none :=
    ulast_stamp_id u t1 hid
  have hsel : selectEq (updateEq s.plans "id" pid (rset u "updated_at" (Val.str t1)))
      "id" pid = (selectEq s.plans "id" pid).map
        (fun r => applyUpdates r (rset u "updated_at" (Val.str t1))) :=
    selectEq_updateEq_of_ulast_none _ _ _ _ hu1
  simp only [Plan.update, hsel, List.map_map]
  cases hh : selectEq s.plans "id" pid with
  | nil => simp
  | cons a rest =>
    simp [rget_applyUpdates_double _ _ _ k (ulast_stamp_other u t1 t2 k hk)]

lemma updateEq_twice_map_agree (tbl : List Rec) (k0 : String) (v : Val)
    (u1 u2 : Rec) (hid : ulast u1 k0 = none) (k : String)
    (hsame : ulast u2 k = ulast u1 k) :
    (updateEq (updateEq tbl k0 v u1) k0 v u2).map (fun r => rget r k) =
      (updateEq tbl k0 v u1).map (fun r => rget r k) := by
  induction tbl with
  | nil => rfl
  | cons r rest ih =>
    by_cases hm : rget r k0 = some v
    · have h1 : rget (applyUpdates r u1) k0 = some v := by
        rw [rget_applyUpdates, hid]
        exact hm
      simp [updateEq_cons, hm, h1, rget_applyUpdates_double _ _ _ k hsame, ih]
    · simp [updateEq_cons, hm, ih]

lemma Plan_update_twice_store_agree (t1 t2 : String) (s : Store) (pid : Val)
    (u : Rec) (hid : rget u "id" = none) (k : String) (hk : k ≠ "updated_at") :
    ((Plan.update t2 (Plan.update t1 s pid u).1 pid u).1).plans.map (fun r => rget r k) =
      ((Plan.update t1 s pid u).1).plans.map (fun r => rget r k) := by
  simp only [Plan.update]
  exact updateEq_twice_map_agree s.plans "id" pid _ _
    (ulast_stamp_id u t1 hid) k (ulast_stamp_other u t1 t2 k hk)

lemma lookupCount_append_new (m : List (String × Nat)) (k k' : String)
    (hany : m.any (fun q => decide (q.1 = k)) = false) :
    lookupCount (m ++ [(k, 1)]) k' =
      lookupCount m k' + (if k' = k then 1 else 0) := by
  induction m with
  | nil =>
    by_cases h : k' = k
    · simp [lookupCount, h]
    · simp [lookupCount, h, Ne.symm h]
  | cons p rest ih =>
    simp only [List.any_cons, Bool.or_eq_false_iff] at hany
    have hpk : ¬p.1 = k := by simpa using hany.1
    by_cases hpk' : p.1 = k'
    · have : ¬k' = k := fun hh => hpk (hpk'.trans hh)
      simp [lookupCount, hpk', this]
    · simp [lookupCount, hpk', ih hany.2]

lemma lookupCount_inc_ne (m : List (String × Nat)) (k k' : String)
    (hne : k' ≠ k) :
    lookupCount (m.map (fun q => if q.1 = k then (q.1, q.2 + 1) else q)) k' =
      lookupCount m k' := by
  induction m with
  | nil => simp [lookupCount]
  | cons p rest ih =>
    by_cases hpk : p.1 = k
    · have hp' : ¬p.1 = k' := fun hh => hne (hh.symm.trans hpk)
      simp only [List.map_cons, if_pos hpk]
      simp [lookupCount, hp', hpk, Ne.symm hne, ih]
    · simp only [List.map_cons, if_neg hpk]
      by_cases hpk' : p.1 = k' <;> simp [lookupCount, hpk', ih]

lemma lookupCount_inc_self (m : List (String × Nat)) (k : String)
    (hany : m.any (fun q => decide (q.1 = k)) = true) :
    lookupCount (m.map (fun q => if q.1 = k then (q.1, q.2 + 1) else q)) k =
      lookupCount m k + 1 := by
  induction m with
  | nil => simp at hany
  | cons p rest ih =>
    by_cases hpk : p.1 = k
    · simp [lookupCount, hpk]
    · simp only [List.any_cons, Bool.or_eq_true_iff] at hany
      rcases hany with hany | hany
      · simp [hpk] at hany
      · simp [lookupCount, hpk, ih hany]

lemma lookupCount_bumpKey (m : List (String × Nat)) (k k' : String) :
    lookupCount (bumpKey m k) k' =
      lookupCount m k' + (if k' = k then 1 else 0) := by
  unfold bumpKey
  cases hany : m.any (fun q => decide (q.1 = k))
  · simp only [Bool.false_eq_true, if_false]
    exact lookupCount_append_new m k k' hany
  · simp only [if_true]
    by_cases h : k' = k
    · subst h
      simp [lookupCount_inc_self m k' hany]
    · simp [lookupCount_inc_ne m k k' h, h]

lemma lookupCount_foldl_bump (l : List Rec) (m : List (String × Nat)) (k : String) :
    lookupCount (l.foldl (fun m p =>
      let c := (rget p "category_id").getD Val.null
      if truthy c then bumpKey m (pyStr c) else m) m) k =
    lookupCount m k + l.countP (fun p =>
      truthy ((rget p "category_id").getD Val.null) &&
        decide (pyStr ((rget p "category_id").getD Val.null) = k)) := by
  induction l generalizing m with
  | nil => simp
  | cons p rest ih =>
    simp only [List.foldl_cons, List.countP_cons]
    by_cases ht : truthy ((rget p "category_id").getD Val.null)
    · simp only [ht, if_true, ih, lookupCount_bumpKey]
      by_cases hc : pyStr ((rget p "category_id").getD Val.null) = k
      · simp [hc, ht]
        omega
      · have : ¬k = pyStr ((rget p "category_id").getD Val.null) :=
          fun hh => hc hh.symm
        simp [hc, ht, this]
    · simp only [ht, if_false, ih]
      simp [ht]

lemma lookupCount_byCategoryOf (plans : List Rec) (k : String) :
    lookupCount (byCategoryOf plans) k = truthyCategoryCount plans k := by
  unfold byCategoryOf truthyCategoryCount
  rw [lookupCount_foldl_bump]
  simp [lookupCount]

lemma get_current_user_none (resolve : String → Option AuthUser)
    (authHeader : Option String)
    (hbad : ∀ h, authHeader = some h → startsWithBearer h = false) :
    get_current_user resolve authHeader = none := by
  cases authHeader with
  | none => rfl
  | some h => simp [get_current_user, hbad h rfl]

lemma ownPlanCheck_eq_some (s : Store) (pid uid : String) (p : Rec)
    (hp : Plan.get_by_id s (Val.str pid) = some p)
    (hown : rget p "user_id" = some (Val.str uid)) :
    ownPlanCheck s pid uid = some p := by
  simp [ownPlanCheck, hp, hown]

lemma ownPlanCheck_eq_none (s : Store) (pid uid : String)
    (hmis : ∀ p, Plan.get_by_id s (Val.str pid) = some p →
      rget p "user_id" ≠ some (Val.str uid)) :
    ownPlanCheck s pid uid = none := by
  cases h : Plan.get_by_id s (Val.str pid) with
  | none => simp [ownPlanCheck, h]
  | some p => simp [ownPlanCheck, h, hmis p h]

lemma delete_guest_count_floor (resolve : String → Option AuthUser)
    (authHeader : Option String) (u : AuthUser) (now : String)
    (pid gid : String) (s : Store) (p : Rec) (m : Int)
    (hauth : get_current_user resolve authHeader = some u)
    (hpm : selectEq s.plans "id" (Val.str pid) = [p])
    (hown : rget p "user_id" = some (Val.str u.id))
    (hcount : rget p "guest_count" = some (Val.int m))
    (hg : selectEq s.guests "id" (Val.str gid) ≠ []) :
    (delete_guest resolve authHeader now pid gid s).resp.status = Codes.SUCCESS ∧
    (delete_guest resolve authHeader now pid gid s).store.guests =
      deleteEq s.guests "id" (Val.str gid) ∧
    ((selectEq (delete_guest resolve authHeader now pid gid s).store.plans "id"
        (Val.str pid)).head?.map (fun q => rget q "guest_count")) =
      some (some (Val.int (max 0 (m - 1)))) := by
  have hopc := ownPlanCheck_eq_some s pid u.id p (by simp [Plan.get_by_id, hpm]) hown
  have hmne : (selectEq s.guests "id" (Val.str gid)).isEmpty = false := by
    cases hsel : selectEq s.guests "id" (Val.str gid) with
    | nil => exact absurd hsel hg
    | cons a rest => simp
  have hu2 : rset [("guest_count", Val.int (max 0 (m - 1)))] "updated_at"
      (Val.str now) =
      [("guest_count", Val.int (max 0 (m - 1))), ("updated_at", Val.str now)] := by
    simp [rset, rget]
  have hulast : ulast [("guest_count", Val.int (max 0 (m - 1))),
      ("updated_at", Val.str now)] "id" = none := by
    simp [ulast]
  have hselupd : selectEq (updateEq s.plans "id" (Val.str pid)
      [("guest_count", Val.int (max 0 (m - 1))), ("updated_at", Val.str now)])
      "id" (Val.str pid) =
      (selectEq s.plans "id" (Val.str pid)).map (fun r => applyUpdates r
        [("guest_count", Val.int (max 0 (m - 1))), ("updated_at", Val.str now)]) :=
    selectEq_updateEq_of_ulast_none _ _ _ _ hulast
  have hgc : rget (applyUpdates p
      [("guest_count", Val.int (max 0 (m - 1))), ("updated_at", Val.str now)])
      "guest_count" = some (Val.int (max 0 (m - 1))) := by
    rw [rget_applyUpdates]
    simp [ulast]
  simp only [delete_guest, hauth, hopc, Guest.delete, hmne, hcount, Plan.update,
    Bool.not_false, Bool.not_true, Bool.false_eq_true, if_false, hu2]
  refine ⟨trivial, trivial, ?_⟩
  simp [hselupd, hpm, hgc]

lemma add_guest_effects (resolve : String → Option AuthUser)
    (authHeader : Option String) (u : AuthUser) (now1 : String)
    (pid gidNew : String) (s : Store) (p : Rec) (n : Int) (data : Rec)
    (bphones : List Rec)
    (hauth : get_current_user resolve authHeader = some u)
    (hpm : selectEq s.plans "id" (Val.str pid) = [p])
    (hown : rget p "user_id" = some (Val.str u.id))
    (hcount : rget p "guest_count" = some (Val.int n))
    (hfresh : selectEq s.guests "id" (Val.str gidNew) = [])
    (hd : data ≠ [])
    (hname : truthy ((rget data "name").getD Val.null) = true)
    (hph : (processPhones data bphones).any
      (fun ph => !truthy ((rget ph "number").getD Val.null)) = false) :
    (add_guest resolve authHeader now1 (Val.str gidNew) pid (some data)
      bphones s).resp.status = 201 ∧
    selectEq (add_guest resolve authHeader now1 (Val.str gidNew) pid (some data)
      bphones s).store.guests "id" (Val.str gidNew) ≠ [] ∧
    deleteEq (add_guest resolve authHeader now1 (Val.str gidNew) pid (some data)
      bphones s).store.guests "id" (Val.str gidNew) = s.guests ∧
    ∃ p2, selectEq (add_guest resolve authHeader now1 (Val.str gidNew) pid
        (some data) bphones s).store.plans "id" (Val.str pid) = [p2] ∧
      rget p2 "user_id" = some (Val.str u.id) ∧
      rget p2 "guest_count" = some (Val.int (n + 1)) := by
  have hopc := ownPlanCheck_eq_some s pid u.id p (by simp [Plan.get_by_id, hpm]) hown
  have hd' : data.isEmpty = false := by
    cases data
    · exact absurd rfl hd
    · simp
  have hname' : (!truthy ((rget data "name").getD Val.null)) = false := by
    simp [hname]
  have hgrow : rget (("id", Val.str gidNew) :: dropNulls
      [("plan_id", Val.str pid), ("name", (rget data "name").getD Val.null),
       ("email", (rget data "email").getD Val.null),
       ("phone", (rget data "phone").getD Val.null),
       ("rsvp_status", (rget data "rsvp_status").getD (Val.str "pending")),
       ("additional_notes", (rget data "additional_notes").getD Val.null)])
      "id" = some (Val.str gidNew) := by
    simp [rget]
  have hcg : (Guest.create s (Val.str gidNew) (Val.str pid)
      ((rget data "name").getD Val.null) ((rget data "email").getD Val.null)
      ((rget data "phone").getD Val.null)
      ((rget data "rsvp_status").getD (Val.str "pending"))
      ((rget data "additional_notes").getD Val.null)
      (processPhones data bphones)).1.guests =
      s.guests ++ [("id", Val.str gidNew) :: dropNulls
        [("plan_id", Val.str pid), ("name", (rget data "name").getD Val.null),
         ("email", (rget data "email").getD Val.null),
         ("phone", (rget data "phone").getD Val.null),
         ("rsvp_status", (rget data "rsvp_status").getD (Val.str "pending")),
         ("additional_notes", (rget data "additional_notes").getD Val.null)]] := by
    simp only [Guest.create, Guest.add_phone_numbers]
    split <;> rfl
  have hcp : (Guest.create s (Val.str gidNew) (Val.str pid)
      ((rget data "name").getD Val.null) ((rget data "email").getD Val.null)
      ((rget data "phone").getD Val.null)
      ((rget data "rsvp_status").getD (Val.str "pending"))
      ((rget data "additional_notes").getD Val.null)
      (processPhones data bphones)).1.plans = s.plans := by
    simp only [Guest.create, Guest.add_phone_numbers]
    split <;> rfl
  have hsel2 : selectEq (Guest.create s (Val.str gidNew) (Val.str pid)
      ((rget data "name").getD Val.null) ((rget data "email").getD Val.null)
      ((rget data "phone").getD Val.null)
      ((rget data "rsvp_status").getD (Val.str "pending"))
      ((rget data "additional_notes").getD Val.null)
      (processPhones data bphones)).1.guests "id" (Val.str gidNew) =
      [("id", Val.str gidNew) :: dropNulls
        [("plan_id", Val.str pid), ("name", (rget data "name").getD Val.null),
         ("email", (rget data "email").getD Val.null),
         ("phone", (rget data "phone").getD Val.null),
         ("rsvp_status", (rget data "rsvp_status").getD (Val.str "pending")),
         ("additional_notes", (rget data "additional_notes").getD Val.null)]] := by
    rw [hcg, selectEq_append, hfresh]
    simp [selectEq, List.filter, hgrow]
  have hres : (Guest.create s (Val.str gidNew) (Val.str pid)
      ((rget data "name").getD Val.null) ((rget data "email").getD Val.null)
      ((rget data "phone").getD Val.null)
      ((rget data "rsvp_status").getD (Val.str "pending"))
      ((rget data "additional_notes").getD Val.null)
      (processPhones data bphones)).2 =
      some (("id", Val.str gidNew) :: dropNulls
        [("plan_id", Val.str pid), ("name", (rget data "name").getD Val.null),
         ("email", (rget data "email").getD Val.null),
         ("phone", (rget data "phone").getD Val.null),
         ("rsvp_status", (rget data "rsvp_status").getD (Val.str "pending")),
         ("additional_notes", (rget data "additional_notes").getD Val.null)],
        selectEq (Guest.create s (Val.str gidNew) (Val.str pid)
          ((rget data "name").getD Val.null) ((rget data "email").getD Val.null)
          ((rget data "phone").getD Val.null)
          ((rget data "rsvp_status").getD (Val.str "pending"))
          ((rget data "additional_notes").getD Val.null)
          (processPhones data bphones)).1.guest_phones "guest_id"
          (Val.str gidNew)) := by
    have hstep : (Guest.create s (Val.str gidNew) (Val.str pid)
        ((rget data "name").getD Val.null) ((rget data "email").getD Val.null)
        ((rget data "phone").getD Val.null)
        ((rget data "rsvp_status").getD (Val.str "pending"))
        ((rget data "additional_notes").getD Val.null)
        (processPhones data bphones)).2 =
        Guest.get_by_id (Guest.create s (Val.str gidNew) (Val.str pid)
          ((rget data "name").getD Val.null) ((rget data "email").getD Val.null)
          ((rget data "phone").getD Val.null)
          ((rget data "rsvp_status").getD (Val.str "pending"))
          ((rget data "additional_notes").getD Val.null)
          (processPhones data bphones)).1 (Val.str gidNew) := by
      simp only [Guest.create, Guest.add_phone_numbers]
    rw [hstep]
    simp [Guest.get_by_id, hsel2]
  have hu1 : rset [("guest_count", Val.int (n + 1))] "updated_at"
      (Val.str now1) =
      [("guest_count", Val.int (n + 1)), ("updated_at", Val.str now1)] := by
    simp [rset, rget]
  have hulast : ulast [("guest_count", Val.int (n + 1)),
      ("updated_at", Val.str now1)] "id" = none := by
    simp [ulast]
  simp only [add_guest, hauth, hopc, Option.getD_some, hd', Bool.false_eq_true,
    if_false, hname', hph, hres, hcount, Plan.update, hu1]
  refine ⟨trivial, ?_, ?_, ?_⟩
  · show selectEq (Guest.create _ _ _ _ _ _ _ _ _).1.guests "id" (Val.str gidNew) ≠ []
    rw [hsel2]
    simp
  · show deleteEq (Guest.create _ _ _ _ _ _ _ _ _).1.guests "id" (Val.str gidNew) = _
    rw [hcg, deleteEq_append, deleteEq_of_selectEq_nil _ _ _ hfresh]
    simp [deleteEq, List.filter, hgrow]
  · refine ⟨applyUpdates p [("guest_count", Val.int (n + 1)),
      ("updated_at", Val.str now1)], ?_, ?_, ?_⟩
    · show selectEq (updateEq (Guest.create _ _ _ _ _ _ _ _ _).1.plans "id"
        (Val.str pid) _) "id" (Val.str pid) = _
      rw [hcp, selectEq_updateEq_of_ulast_none _ _ _ _ hulast, hpm]
      rfl
    · rw [rget_applyUpdates]
      simp only [ulast]
      simp [hown]
    · rw [rget_applyUpdates]
      simp [ulast]

/-!
Claim theorems.
-/

/-- C5: for every request to an owner-scoped endpoint whose `Authorization`
header is absent or does not begin with `Bearer `, the authorization guard
resolves no identity — for every behaviour of the auth capability, so the
capability is never consulted — and every owner-scoped handler responds 401
`Unauthorized` with the store unchanged and no entity accessor invoked. -/
theorem C5_missing_bearer_rejected_before_accessors
    (resolve : String → Option AuthUser) (authHeader : Option String)
    (hbad : ∀ h, authHeader = some h → startsWithBearer h = false) :
    get_current_user resolve authHeader = none ∧
    (∀ parseDate newId body s,
      create_plan resolve authHeader parseDate newId body s = unauthorizedOut s) ∧
    (∀ limit offset s,
      get_plans resolve authHeader limit offset s = unauthorizedOut s) ∧
    (∀ pid s, get_plan resolve authHeader pid s = unauthorizedOut s) ∧
    (∀ now pid body s,
      update_plan resolve authHeader now pid body s = unauthorizedOut s) ∧
    (∀ pid s, delete_plan resolve authHeader pid s = unauthorizedOut s) ∧
    (∀ now ngid pid body bphones s,
      add_guest resolve authHeader now ngid pid body bphones s = unauthorizedOut s) ∧
    (∀ pid s, get_guests resolve authHeader pid s = unauthorizedOut s) ∧
    (∀ pid gid s, get_guest resolve authHeader pid gid s = unauthorizedOut s) ∧
    (∀ pid gid body s,
      update_guest resolve authHeader pid gid body s = unauthorizedOut s) ∧
    (∀ now pid gid s,
      delete_guest resolve authHeader now pid gid s = unauthorizedOut s) ∧
    (∀ pid gid body s,
      update_guest_rsvp resolve authHeader pid gid body s = unauthorizedOut s) ∧
    (∀ now pid gid s,
      send_invitation resolve authHeader now pid gid s = unauthorizedOut s) ∧
    (∀ pid gid body s,
      add_guest_phone resolve authHeader pid gid body s = unauthorizedOut s) ∧
    (∀ parseDate newId pid body s,
      create_task resolve authHeader parseDate newId pid body s = unauthorizedOut s) ∧
    (∀ s, get_stats resolve authHeader s = (unauthorizedOut s, none)) := by
  have h0 := get_current_user_none resolve authHeader hbad
  refine ⟨h0, ?_, ?_, ?_, ?_, ?_, ?_, ?_, ?_, ?_, ?_, ?_, ?_, ?_, ?_, ?_⟩
  · intro parseDate newId body s
    simp [create_plan, h0]
  · intro limit offset s
    simp [get_plans, h0]
  · intro pid s
    simp [get_plan, h0]
  · intro now pid body s
    simp [update_plan, h0]
  · intro pid s
    simp [delete_plan, h0]
  · intro now ngid pid body bphones s
    simp [add_guest, h0]
  · intro pid s
    simp [get_guests, h0]
  · intro pid gid s
    simp [get_guest, h0]
  · intro pid gid body s
    simp [update_guest, h0]
  · intro now pid gid s
    simp [delete_guest, h0]
  · intro pid gid body s
    simp [update_guest_rsvp, h0]
  · intro now pid gid s
    simp [send_invitation, h0]
  · intro pid gid body s
    simp [add_guest_phone, h0]
  · intro parseDate newId pid body s
    simp [create_task, h0]
  · intro s
    simp [get_stats, h0]

/-- Witness for C5 at a concrete malformed header. -/
theorem C5_missing_bearer_rejected_before_accessors_witness :
    (∀ h, (some "Token abc" : Option String) = some h →
      startsWithBearer h = false) ∧
    get_current_user resolve1 (some "Token abc") = none ∧
    get_plan resolve1 (some "Token abc") "p1" storeOther = unauthorizedOut storeOther ∧
    get_stats resolve1 (some "Token abc") storeMine = (unauthorizedOut storeMine, none) := by
  have hbad : ∀ h, (some "Token abc" : Option String) = some h →
      startsWithBearer h = false := by
    intro h hh
    cases hh
    decide
  have main := C5_missing_bearer_rejected_before_accessors resolve1 (some "Token abc") hbad
  exact ⟨hbad, main.1, main.2.2.2.1 "p1" storeOther,
    main.2.2.2.2.2.2.2.2.2.2.2.2.2.2.2 storeMine⟩

/-- C8: for every authenticated plan-creation request whose body lacks a
truthy `title` or a truthy `event_date` (an absent or empty body included),
the handler responds with the validation-error status 400, the store is
unchanged, and no accessor is invoked, so no plan record is created. -/
theorem C8_create_plan_missing_fields_rejected
    (resolve : String → Option AuthUser) (authHeader : Option String)
    (u : AuthUser) (parseDate : String → Option String) (newId : Val)
    (body : Option Rec) (s : Store)
    (hauth : get_current_user resolve authHeader = some u)
    (hmiss : truthy ((rget (body.getD []) "title").getD Val.null) = false ∨
      truthy ((rget (body.getD []) "event_date").getD Val.null) = false) :
    (create_plan resolve authHeader parseDate newId body s).resp.status = Codes.ERROR ∧
    (create_plan resolve authHeader parseDate newId body s).store = s ∧
    (create_plan resolve authHeader parseDate newId body s).calls = [] := by
  by_cases hd : (body.getD []).isEmpty
  · simp [create_plan, hauth, hd, errOut, Codes.ERROR]
  · rcases hmiss with hm | hm <;>
      simp [create_plan, hauth, hd, hm, errOut, Codes.ERROR]

/-- Witness for C8: a body carrying only a title. -/
theorem C8_create_plan_missing_fields_rejected_witness :
    get_current_user resolve1 header1 = some user1 ∧
    (truthy ((rget ((some [("title", Val.str "Wedding")] : Option Rec).getD [])
        "event_date").getD Val.null) = false) ∧
    ((create_plan resolve1 header1 (fun d => some d) (Val.str "p9")
        (some [("title", Val.str "Wedding")]) store0).resp.status = Codes.ERROR ∧
      (create_plan resolve1 header1 (fun d => some d) (Val.str "p9")
        (some [("title", Val.str "Wedding")]) store0).store = store0 ∧
      (create_plan resolve1 header1 (fun d => some d) (Val.str "p9")
        (some [("title", Val.str "Wedding")]) store0).calls = []) := by
  refine ⟨by decide, by decide, ?_⟩
  exact C8_create_plan_missing_fields_rejected resolve1 header1 user1
    (fun d => some d) (Val.str "p9") (some [("title", Val.str "Wedding")]) store0
    (by decide) (Or.inr (by decide))

/-- C1 counterexample: on the single-plan GET, an authenticated non-owner
request for an existing plan gets 403 `Unauthorized to view this plan`,
while the same request against a store with no such plan gets 404
`Plan not found` — the two responses differ, so this endpoint does reveal
whether the plan exists. -/
theorem C1_counterexample_get_plan_reveals_existence :
    (get_plan resolve1 header1 "p1" storeOther).resp =
      { status := 403, error := some "Unauthorized to view this plan" } ∧
    (get_plan resolve1 header1 "p1" store0).resp =
      { status := Codes.NOT_FOUND, error := some "Plan not found" } ∧
    (get_plan resolve1 header1 "p1" storeOther).resp ≠
      (get_plan resolve1 header1 "p1" store0).resp := by
  refine ⟨by decide, by decide, by decide⟩

/-- C1 amended: for every plan-scoped endpoint EXCEPT the single-plan GET —
PUT/DELETE plan and all guest/task sub-routes — an authenticated request by
a non-owner produces exactly the handler output produced for a plan id that
matches no record: the 404 `Plan not found or unauthorized` response with the
store unchanged, revealing nothing about the plan's existence.  The
single-plan GET instead distinguishes the two cases (403 versus 404). -/
theorem C1_amended_ownership_mismatch_matches_not_found
    (resolve : String → Option AuthUser) (authHeader : Option String)
    (u : AuthUser) (pid : String) (s : Store)
    (hauth : get_current_user resolve authHeader = some u)
    (hmis : ∀ p, Plan.get_by_id s (Val.str pid) = some p →
      rget p "user_id" ≠ some (Val.str u.id)) :
    (∀ now body, update_plan resolve authHeader now pid body s = planNotFoundOut s) ∧
    (delete_plan resolve authHeader pid s = planNotFoundOut s) ∧
    (∀ now ngid body bphones,
      add_guest resolve authHeader now ngid pid body bphones s = planNotFoundOut s) ∧
    (get_guests resolve authHeader pid s = planNotFoundOut s) ∧
    (∀ gid, get_guest resolve authHeader pid gid s = planNotFoundOut s) ∧
    (∀ gid body, update_guest resolve authHeader pid gid body s = planNotFoundOut s) ∧
    (∀ now gid, delete_guest resolve authHeader now pid gid s = planNotFoundOut s) ∧
    (∀ gid body,
      update_guest_rsvp resolve authHeader pid gid body s = planNotFoundOut s) ∧
    (∀ now gid, send_invitation resolve authHeader now pid gid s = planNotFoundOut s) ∧
    (∀ gid body,
      add_guest_phone resolve authHeader pid gid body s = planNotFoundOut s) ∧
    (∀ parseDate newId body,
      create_task resolve authHeader parseDate newId pid body s = planNotFoundOut s) := by
  have hown := ownPlanCheck_eq_none s pid u.id hmis
  refine ⟨?_, ?_, ?_, ?_, ?_, ?_, ?_, ?_, ?_, ?_, ?_⟩
  · intro now body
    simp [update_plan, hauth, hown]
  · simp [delete_plan, hauth, hown]
  · intro now ngid body bphones
    simp [add_guest, hauth, hown]
  · simp [get_guests, hauth, hown]
  · intro gid
    simp [get_guest, hauth, hown]
  · intro gid body
    simp [update_guest, hauth, hown]
  · intro now gid
    simp [delete_guest, hauth, hown]
  · intro gid body
    simp [update_guest_rsvp, hauth, hown]
  · intro now gid
    simp [send_invitation, hauth, hown]
  · intro gid body
    simp [add_guest_phone, hauth, hown]
  · intro parseDate newId body
    simp [create_task, hauth, hown]

/-- Witness for the amended C1 at a concrete non-owner request. -/
theorem C1_amended_ownership_mismatch_matches_not_found_witness :
    get_current_user resolve1 header1 = some user1 ∧
    (∀ p, Plan.get_by_id storeOther (Val.str "p1") = some p →
      rget p "user_id" ≠ some (Val.str user1.id)) ∧
    delete_plan resolve1 header1 "p1" storeOther = planNotFoundOut storeOther ∧
    delete_plan resolve1 header1 "p1" store0 = planNotFoundOut store0 := by
  have hmisOther : ∀ p, Plan.get_by_id storeOther (Val.str "p1") = some p →
      rget p "user_id" ≠ some (Val.str user1.id) := by
    intro p hp
    have hpl : Plan.get_by_id storeOther (Val.str "p1") = some planOther := by decide
    rw [hpl] at hp
    cases hp
    decide
  have hmis0 : ∀ p, Plan.get_by_id store0 (Val.str "p1") = some p →
      rget p "user_id" ≠ some (Val.str user1.id) := by
    intro p hp
    simp [Plan.get_by_id, store0, selectEq] at hp
  have m1 := C1_amended_ownership_mismatch_matches_not_found resolve1 header1
    user1 "p1" storeOther (by decide) hmisOther
  have m2 := C1_amended_ownership_mismatch_matches_not_found resolve1 header1
    user1 "p1" store0 (by decide) hmis0
  exact ⟨by decide, hmisOther, m1.2.1, m2.2.1⟩

/-- C2: the guest update, guest delete, RSVP update, invitation, and
add-phone handlers verify only that the caller owns the plan named in the
URL path and never that the target guest belongs to that plan: for a user
owning plan `pid` and a guest `gid` stored with a different `plan_id`, each
of these handlers still performs its operation on that guest.  Only the
single-guest GET rejects the foreign guest (with the 400
`Guest does not belong to this plan` response). -/
theorem C2_guest_subroutes_skip_plan_membership
    (resolve : String → Option AuthUser) (authHeader : Option String)
    (u : AuthUser) (pid gid pidG : String) (s : Store) (p g : Rec) (n : Int)
    (hauth : get_current_user resolve authHeader = some u)
    (hp : Plan.get_by_id s (Val.str pid) = some p)
    (hown : rget p "user_id" = some (Val.str u.id))
    (hcount : rget p "guest_count" = some (Val.int n))
    (hg : (selectEq s.guests "id" (Val.str gid)).head? = some g)
    (hgplan : rget g "plan_id" = some (Val.str pidG))
    (hne : pidG ≠ pid) :
    (∀ data, data ≠ [] →
      (update_guest resolve authHeader pid gid (some data) s).store.guests =
        updateEq s.guests "id" (Val.str gid) data) ∧
    (∀ now,
      (delete_guest resolve authHeader now pid gid s).store.guests =
        deleteEq s.guests "id" (Val.str gid) ∧
      (delete_guest resolve authHeader now pid gid s).resp.status = Codes.SUCCESS) ∧
    (∀ data sv, rget data "rsvp_status" = some (Val.str sv) →
      (sv = "pending" ∨ sv = "confirmed" ∨ sv = "declined" ∨ sv = "maybe") →
      (update_guest_rsvp resolve authHeader pid gid (some data) s).store.guests =
        updateEq s.guests "id" (Val.str gid) [("rsvp_status", Val.str sv)]) ∧
    (∀ now,
      (send_invitation resolve authHeader now pid gid s).store.guests =
        updateEq s.guests "id" (Val.str gid)
          [("is_invitation_sent", Val.bool true),
           ("invitation_sent_at", Val.str now)]) ∧
    (∀ data, truthy ((rget data "phone_number").getD Val.null) = true →
      (add_guest_phone resolve authHeader pid gid (some data) s).store.guest_phones =
        s.guest_phones ++
          [[("guest_id", Val.str gid),
            ("phone_number", (rget data "phone_number").getD Val.null),
            ("phone_type", (rget data "phone_type").getD (Val.str "mobile")),
            ("is_primary", (rget data "is_primary").getD (Val.bool false))]] ∧
      (add_guest_phone resolve authHeader pid gid (some data) s).resp.status = 201) ∧
    ((get_guest resolve authHeader pid gid s).resp =
      { status := Codes.ERROR, error := some "Guest does not belong to this plan" }) := by
  have hopc := ownPlanCheck_eq_some s pid u.id p hp hown
  have hmne : (selectEq s.guests "id" (Val.str gid)).isEmpty = false := by
    cases hsel : selectEq s.guests "id" (Val.str gid) with
    | nil => rw [hsel] at hg; simp at hg
    | cons a rest => simp
  refine ⟨?_, ?_, ?_, ?_, ?_, ?_⟩
  · intro data hd
    have hd' : data.isEmpty = false := by
      cases data
      · exact absurd rfl hd
      · simp
    simp only [update_guest, hauth, hopc, Option.getD_some, hd', Guest.update,
      errOut, Bool.false_eq_true, if_false]
    split <;> rfl
  · intro now
    simp [delete_guest, hauth, hopc, Guest.delete, hmne, hcount, Plan.update,
      Codes.SUCCESS]
  · intro data sv hr hsv
    have hcond : (sv == "pending" || sv == "confirmed" || sv == "declined" ||
        sv == "maybe") = true := by
      rcases hsv with rfl | rfl | rfl | rfl <;> decide
    simp only [update_guest_rsvp, hauth, hopc, hr, Option.getD_some, hcond,
      if_true, Guest.update_rsvp, Guest.update, errOut]
    split <;> rfl
  · intro now
    simp only [send_invitation, hauth, hopc, Guest.mark_invitation_sent,
      Guest.update, errOut]
    split <;> rfl
  · intro data hpn
    simp [add_guest_phone, hauth, hopc, hpn, Guest.add_phone_numbers, rget]
  · simp [get_guest, hauth, hopc, Guest.get_by_id, hg, hgplan, hne, errOut,
      Codes.ERROR]

/-- Witness for C2 at a concrete cross-plan guest: the guest of plan `p2` is
really deleted through plan `p1`'s delete endpoint. -/
theorem C2_guest_subroutes_skip_plan_membership_witness :
    get_current_user resolve1 header1 = some user1 ∧
    Plan.get_by_id storeCross (Val.str "p1") = some planMine ∧
    rget planMine "user_id" = some (Val.str user1.id) ∧
    rget guestCross "plan_id" = some (Val.str "p2") ∧
    ("p2" : String) ≠ "p1" ∧
    ((delete_guest resolve1 header1 "t0" "p1" "g1" storeCross).store.guests =
        deleteEq storeCross.guests "id" (Val.str "g1") ∧
      (delete_guest resolve1 header1 "t0" "p1" "g1" storeCross).resp.status =
        Codes.SUCCESS) ∧
    deleteEq storeCross.guests "id" (Val.str "g1") = [] ∧
    (get_guest resolve1 header1 "p1" "g1" storeCross).resp =
      { status := Codes.ERROR, error := some "Guest does not belong to this plan" } := by
  have main := C2_guest_subroutes_skip_plan_membership resolve1 header1 user1
    "p1" "g1" "p2" storeCross planMine guestCross 3 (by decide) (by decide)
    (by decide) (by decide) (by decide) (by decide) (by decide)
  exact ⟨by decide, by decide, by decide, by decide, by decide,
    main.2.1 "t0", by decide, main.2.2.2.2.2⟩

/-- C6: an authenticated, plan-owning request to the RSVP endpoint whose
body is present but whose `rsvp_status` is missing, falsy, or any value
outside \x7bpending, confirmed, declined, maybe\x7d is answered with the
validation-error response 400 `Valid RSVP status required`, the store is
unchanged (so the guest's stored RSVP status is unchanged) and no update
accessor is invoked. -/
theorem C6_rsvp_invalid_value_rejected
    (resolve : String → Option AuthUser) (authHeader : Option String)
    (u : AuthUser) (pid gid : String) (s : Store) (p : Rec) (data : Rec)
    (hauth : get_current_user resolve authHeader = some u)
    (hp : Plan.get_by_id s (Val.str pid) = some p)
    (hown : rget p "user_id" = some (Val.str u.id))
    (hbad : rsvpOk ((rget data "rsvp_status").getD Val.null) = false) :
    update_guest_rsvp resolve authHeader pid gid (some data) s =
      errOut s Codes.ERROR "Valid RSVP status required" ["Plan.get_by_id"] := by
  have hopc := ownPlanCheck_eq_some s pid u.id p hp hown
  simp only [update_guest_rsvp, hauth, hopc]
  cases hv : (rget data "rsvp_status").getD Val.null with
  | str sv =>
    rw [hv] at hbad
    simp only [rsvpOk] at hbad
    simp [hbad]
  | int m => simp
  | bool b => simp
  | null => simp

/-- Witness for C6: `rsvp_status = "yes"` against an owned plan and a stored
guest; the response is the 400 and the guest row is untouched. -/
theorem C6_rsvp_invalid_value_rejected_witness :
    get_current_user resolve1 header1 = some user1 ∧
    Plan.get_by_id storeHome (Val.str "p1") = some planMine ∧
    rget planMine "user_id" = some (Val.str user1.id) ∧
    rsvpOk ((rget [("rsvp_status", Val.str "yes")] "rsvp_status").getD Val.null) = false ∧
    update_guest_rsvp resolve1 header1 "p1" "g1"
        (some [("rsvp_status", Val.str "yes")]) storeHome =
      errOut storeHome Codes.ERROR "Valid RSVP status required" ["Plan.get_by_id"] ∧
    (update_guest_rsvp resolve1 header1 "p1" "g1"
        (some [("rsvp_status", Val.str "yes")]) storeHome).store.guests = [guestHome] := by
  refine ⟨by decide, by decide, by decide, by decide, ?_, by decide⟩
  exact C6_rsvp_invalid_value_rejected resolve1 header1 user1 "p1" "g1"
    storeHome planMine [("rsvp_status", Val.str "yes")] (by decide) (by decide)
    (by decide) (by decide)

/-- C7: the generic guest update endpoint forwards the body to
`Guest.update` unvalidated — for any authenticated plan-owning request with
a non-empty body, the guests table becomes exactly the body applied to the
matching guest rows, and when the guest exists (and the payload does not
reassign its primary key) the handler reports success; in particular an
`rsvp_status` outside the RSVP enumeration is stored as-is. -/
theorem C7_update_guest_forwards_unvalidated
    (resolve : String → Option AuthUser) (authHeader : Option String)
    (u : AuthUser) (pid gid : String) (s : Store) (p : Rec) (data : Rec)
    (hauth : get_current_user resolve authHeader = some u)
    (hp : Plan.get_by_id s (Val.str pid) = some p)
    (hown : rget p "user_id" = some (Val.str u.id))
    (hd : data ≠ []) :
    (update_guest resolve authHeader pid gid (some data) s).store.guests =
      updateEq s.guests "id" (Val.str gid) data ∧
    (selectEq s.guests "id" (Val.str gid) ≠ [] → rget data "id" = none →
      (update_guest resolve authHeader pid gid (some data) s).resp.status =
        Codes.SUCCESS) := by
  have hopc := ownPlanCheck_eq_some s pid u.id p hp hown
  have hd' : data.isEmpty = false := by
    cases data
    · exact absurd rfl hd
    · simp
  constructor
  · simp only [update_guest, hauth, hopc, Option.getD_some, hd', Guest.update,
      errOut, Bool.false_eq_true, if_false]
    split <;> rfl
  · intro hgne hid
    have hmap : selectEq (updateEq s.guests "id" (Val.str gid) data) "id" (Val.str gid) =
        (selectEq s.guests "id" (Val.str gid)).map (fun r => applyUpdates r data) :=
      selectEq_updateEq_of_ulast_none _ _ _ _
        ((ulast_none_iff_rget_none data "id").2 hid)
    have htne : ((selectEq s.guests "id" (Val.str gid)).map
        (fun r => applyUpdates r data)).isEmpty = false := by
      cases hsel : selectEq s.guests "id" (Val.str gid) with
      | nil => exact absurd hsel hgne
      | cons a rest => simp
    simp only [update_guest, hauth, hopc, Option.getD_some, hd',
      Bool.false_eq_true, if_false, Guest.update, htne, Guest.get_by_id, hmap]
    cases hsel : selectEq s.guests "id" (Val.str gid) with
    | nil => exact absurd hsel hgne
    | cons a rest => simp [hsel]

/-- Witness for C7: storing the out-of-enumeration value `banana` through
the generic guest update endpoint. -/
theorem C7_update_guest_forwards_unvalidated_witness :
    get_current_user resolve1 header1 = some user1 ∧
    Plan.get_by_id storeHome (Val.str "p1") = some planMine ∧
    rget planMine "user_id" = some (Val.str user1.id) ∧
    rsvpOk (Val.str "banana") = false ∧
    (update_guest resolve1 header1 "p1" "g1"
        (some [("rsvp_status", Val.str "banana")]) storeHome).store.guests =
      updateEq storeHome.guests "id" (Val.str "g1")
        [("rsvp_status", Val.str "banana")] ∧
    (update_guest resolve1 header1 "p1" "g1"
        (some [("rsvp_status", Val.str "banana")]) storeHome).resp.status =
      Codes.SUCCESS ∧
    (rget ((update_guest resolve1 header1 "p1" "g1"
        (some [("rsvp_status", Val.str "banana")]) storeHome).store.guests.headD [])
      "rsvp_status") = some (Val.str "banana") := by
  have main := C7_update_guest_forwards_unvalidated resolve1 header1 user1
    "p1" "g1" storeHome planMine [("rsvp_status", Val.str "banana")]
    (by decide) (by decide) (by decide) (by decide)
  exact ⟨by decide, by decide, by decide, by decide, main.1,
    main.2 (by decide) (by decide), by decide⟩

/-- C4: every entity accessor method of `Plan`, `Guest`,
`GuestRelationship`, `EventTask` and `EventCategory`, for every behaviour of
the underlying gateway including raised exceptions, returns normally (never
propagates an exception), and when the gateway raises it degrades to the
safe empty value: `none` for single-record operations, `[]` for collection
operations, `false` for delete operations. -/
theorem C4_accessors_never_propagate_exceptions :
    (∀ gw, ∃ v, PlanX.create gw = Except.ok v) ∧
    (∀ e, PlanX.create (Except.error e) = Except.ok none) ∧
    (∀ gw, ∃ v, PlanX.get_by_id gw = Except.ok v) ∧
    (∀ e, PlanX.get_by_id (Except.error e) = Except.ok none) ∧
    (∀ gw, ∃ v, PlanX.get_user_plans gw = Except.ok v) ∧
    (∀ e, PlanX.get_user_plans (Except.error e) = Except.ok []) ∧
    (∀ gw, ∃ v, PlanX.update gw = Except.ok v) ∧
    (∀ e, PlanX.update (Except.error e) = Except.ok none) ∧
    (∀ gw, ∃ v, PlanX.delete gw = Except.ok v) ∧
    (∀ e, PlanX.delete (Except.error e) = Except.ok false) ∧
    (∀ gid phones gw, ∃ v, GuestX.add_phone_numbers gid phones gw = Except.ok v) ∧
    (∀ gid phones e,
      GuestX.add_phone_numbers gid phones (Except.error e) = Except.ok []) ∧
    (∀ gw1 gw2, ∃ v, GuestX.get_by_id gw1 gw2 = Except.ok v) ∧
    (∀ e gw2, GuestX.get_by_id (Except.error e) gw2 = Except.ok none) ∧
    (∀ g e, GuestX.get_by_id (Except.ok [g]) (Except.error e) = Except.ok none) ∧
    (∀ phones gw1 gw2 gw3 gw4, ∃ v,
      GuestX.create phones gw1 gw2 gw3 gw4 = Except.ok v) ∧
    (∀ phones e gw2 gw3 gw4,
      GuestX.create phones (Except.error e) gw2 gw3 gw4 = Except.ok none) ∧
    (∀ gw1 gw2, ∃ v, GuestX.get_plan_guests gw1 gw2 = Except.ok v) ∧
    (∀ e gw2, GuestX.get_plan_guests (Except.error e) gw2 = Except.ok []) ∧
    (∀ gw1 gw2 gw3, ∃ v, GuestX.update gw1 gw2 gw3 = Except.ok v) ∧
    (∀ e gw2 gw3, GuestX.update (Except.error e) gw2 gw3 = Except.ok none) ∧
    (∀ gw1 gw2 gw3, ∃ v, GuestX.update_rsvp gw1 gw2 gw3 = Except.ok v) ∧
    (∀ e gw2 gw3, GuestX.update_rsvp (Except.error e) gw2 gw3 = Except.ok none) ∧
    (∀ gw1 gw2 gw3, ∃ v, GuestX.mark_invitation_sent gw1 gw2 gw3 = Except.ok v) ∧
    (∀ e gw2 gw3,
      GuestX.mark_invitation_sent (Except.error e) gw2 gw3 = Except.ok none) ∧
    (∀ gw, ∃ v, GuestX.delete gw = Except.ok v) ∧
    (∀ e, GuestX.delete (Except.error e) = Except.ok false) ∧
    (∀ gw1 gw2 gwEach, ∃ v, GuestX.search_by_phone gw1 gw2 gwEach = Except.ok v) ∧
    (∀ e gw2 gwEach,
      GuestX.search_by_phone (Except.error e) gw2 gwEach = Except.ok []) ∧
    (∀ gw, ∃ v, GuestRelationshipX.create_relationship gw = Except.ok v) ∧
    (∀ e, GuestRelationshipX.create_relationship (Except.error e) = Except.ok none) ∧
    (∀ gw1 gw2, ∃ v,
      GuestRelationshipX.get_guest_relationships gw1 gw2 = Except.ok v) ∧
    (∀ e gw2,
      GuestRelationshipX.get_guest_relationships (Except.error e) gw2 = Except.ok []) ∧
    (∀ gw, ∃ v, EventTaskX.create_task gw = Except.ok v) ∧
    (∀ e, EventTaskX.create_task (Except.error e) = Except.ok none) ∧
    (∀ gw, ∃ v, EventCategoryX.get_all gw = Except.ok v) ∧
    (∀ e, EventCategoryX.get_all (Except.error e) = Except.ok []) ∧
    (∀ gw, ∃ v, EventCategoryX.get_by_id gw = Except.ok v) ∧
    (∀ e, EventCategoryX.get_by_id (Except.error e) = Except.ok none) := by
  have htry : ∀ {α : Type} (body : Except String α) (fb : α),
      ∃ v, tryE body fb = Except.ok v := by
    intro α body fb
    cases body with
    | ok a => exact ⟨a, rfl⟩
    | error e => exact ⟨fb, rfl⟩
  refine ⟨fun gw => htry _ _, fun e => rfl, fun gw => htry _ _, fun e => rfl,
    fun gw => htry _ _, fun e => rfl, fun gw => htry _ _, fun e => rfl,
    fun gw => htry _ _, fun e => rfl,
    fun gid phones gw => htry _ _, fun gid phones e => rfl,
    fun gw1 gw2 => htry _ _, fun e gw2 => rfl, fun g e => rfl,
    fun phones gw1 gw2 gw3 gw4 => htry _ _, fun phones e gw2 gw3 gw4 => rfl,
    fun gw1 gw2 => htry _ _, fun e gw2 => rfl,
    fun gw1 gw2 gw3 => htry _ _, fun e gw2 gw3 => rfl,
    fun gw1 gw2 gw3 => htry _ _, fun e gw2 gw3 => rfl,
    fun gw1 gw2 gw3 => htry _ _, fun e gw2 gw3 => rfl,
    fun gw => htry _ _, fun e => rfl,
    fun gw1 gw2 gwEach => htry _ _, fun e gw2 gwEach => rfl,
    fun gw => htry _ _, fun e => rfl,
    fun gw1 gw2 => htry _ _, fun e gw2 => rfl,
    fun gw => htry _ _, fun e => rfl,
    fun gw => htry _ _, fun e => rfl,
    fun gw => htry _ _, fun e => rfl⟩

/-- C9 counterexample: `Plan.update` stamps `updated_at` with the call time,
so two successive calls with the same payload at different times return
different stored representations; and a payload that reassigns `id` makes
the second call return `None` where the first returned a record — even at
the same timestamp. -/
theorem C9_counterexample_plan_update_not_idempotent :
    (Plan.update "t2" (Plan.update "t1" storeMine (Val.str "p1")
        [("title", Val.str "b")]).1 (Val.str "p1") [("title", Val.str "b")]).2 ≠
      (Plan.update "t1" storeMine (Val.str "p1") [("title", Val.str "b")]).2 ∧
    (Plan.update "t0" (Plan.update "t0" storeMine (Val.str "p1")
        [("id", Val.str "q")]).1 (Val.str "p1") [("id", Val.str "q")]).2 = none ∧
    (Plan.update "t0" storeMine (Val.str "p1") [("id", Val.str "q")]).2 ≠ none := by
  refine ⟨by decide, by decide, by decide⟩

/-- C9 amended: `Guest.update` is exactly idempotent — a second call with
the same payload returns the same store and the same result.  `Plan.update`,
which stamps `updated_at` with the call time, is idempotent for payloads
that do not reassign the record id, up to that stamp: at equal timestamps
the two calls coincide, and at different timestamps the returned record and
every stored plan row agree with the first call on every field other than
`updated_at`. -/
theorem C9_amended_update_idempotence :
    (∀ s gid u, Guest.update (Guest.update s gid u).1 gid u = Guest.update s gid u) ∧
    (∀ now s pid u, rget u "id" = none →
      Plan.update now (Plan.update now s pid u).1 pid u = Plan.update now s pid u) ∧
    (∀ t1 t2 s pid u, rget u "id" = none → ∀ k, k ≠ "updated_at" →
      ((Plan.update t2 (Plan.update t1 s pid u).1 pid u).2).map (fun r => rget r k) =
        ((Plan.update t1 s pid u).2).map (fun r => rget r k) ∧
      ((Plan.update t2 (Plan.update t1 s pid u).1 pid u).1).plans.map
          (fun r => rget r k) =
        ((Plan.update t1 s pid u).1).plans.map (fun r => rget r k)) := by
  refine ⟨Guest_update_idem, ?_, ?_⟩
  · intro now s pid u hid
    exact Plan_update_idem_same_now now s pid u hid
  · intro t1 t2 s pid u hid k hk
    exact ⟨Plan_update_twice_result_agree t1 t2 s pid u hid k hk,
      Plan_update_twice_store_agree t1 t2 s pid u hid k hk⟩

/-- Witness for the amended C9 at concrete stores and payloads. -/
theorem C9_amended_update_idempotence_witness :
    Guest.update (Guest.update storeHome (Val.str "g1")
        [("name", Val.str "Rob")]).1 (Val.str "g1") [("name", Val.str "Rob")] =
      Guest.update storeHome (Val.str "g1") [("name", Val.str "Rob")] ∧
    rget [("title", Val.str "b")] "id" = none ∧
    Plan.update "t0" (Plan.update "t0" storeMine (Val.str "p1")
        [("title", Val.str "b")]).1 (Val.str "p1") [("title", Val.str "b")] =
      Plan.update "t0" storeMine (Val.str "p1") [("title", Val.str "b")] ∧
    ((Plan.update "t2" (Plan.update "t1" storeMine (Val.str "p1")
        [("title", Val.str "b")]).1 (Val.str "p1") [("title", Val.str "b")]).2).map
        (fun r => rget r "title") =
      ((Plan.update "t1" storeMine (Val.str "p1") [("title", Val.str "b")]).2).map
        (fun r => rget r "title") := by
  have main := C9_amended_update_idempotence
  exact ⟨main.1 storeHome (Val.str "g1") [("name", Val.str "Rob")],
    by decide,
    main.2.1 "t0" storeMine (Val.str "p1") [("title", Val.str "b")] (by decide),
    (main.2.2 "t1" "t2" storeMine (Val.str "p1") [("title", Val.str "b")]
      (by decide) "title" (by decide)).1⟩

/-- C10 counterexample: a fetched plan whose `category_id` is the integer 0 —
non-null — is silently excluded from `by_category` because the code tests
Python truthiness (`if category:`), so the histogram does not count plans
per non-null category id as claimed. -/
theorem C10_counterexample_category_zero_excluded :
    lookupCount (statsCalc (Plan.get_user_plans storeCatZero
        (Val.str "u1") 1000 0)).by_category "0" = 0 ∧
    specByCategoryCount (Plan.get_user_plans storeCatZero
        (Val.str "u1") 1000 0) "0" = 1 ∧
    lookupCount (statsCalc (Plan.get_user_plans storeCatZero
        (Val.str "u1") 1000 0)).by_category "0" ≠
      specByCategoryCount (Plan.get_user_plans storeCatZero
        (Val.str "u1") 1000 0) "0" := by
  refine ⟨by decide, by decide, by decide⟩

/-- C10 amended: for every authenticated user, `get_stats` aggregates
exactly the fetched list — at most 1000 of the user's plans, plans beyond
that limit silently excluded — returning `total_plans` as the length of the
fetched list, `upcoming_plans`/`completed_plans` as its counts of plans with
status `planned`/`completed`, `total_guests` as the sum of its plans'
`guest_count` fields (0 when absent), and `by_category` as a histogram over
its plans with a TRUTHY category id (non-null and non-zero), keyed by the
Python string form of the id. -/
theorem C10_amended_get_stats_aggregates_fetched_list
    (resolve : String → Option AuthUser) (authHeader : Option String)
    (u : AuthUser) (s : Store)
    (hauth : get_current_user resolve authHeader = some u) :
    (get_stats resolve authHeader s).2 =
      some (statsCalc (Plan.get_user_plans s (Val.str u.id) 1000 0)) ∧
    (get_stats resolve authHeader s).1.resp.status = Codes.SUCCESS ∧
    (get_stats resolve authHeader s).1.store = s ∧
    (Plan.get_user_plans s (Val.str u.id) 1000 0).length =
      min 1000 (selectEq s.plans "user_id" (Val.str u.id)).length ∧
    (∀ plans : List Rec,
      (statsCalc plans).total_plans = plans.length ∧
      (statsCalc plans).upcoming_plans =
        plans.countP (fun p => decide (rget p "status" = some (Val.str "planned"))) ∧
      (statsCalc plans).completed_plans =
        plans.countP (fun p => decide (rget p "status" = some (Val.str "completed"))) ∧
      (statsCalc plans).total_guests = (plans.map guestCountOf).sum ∧
      (∀ key, lookupCount (statsCalc plans).by_category key =
        truthyCategoryCount plans key)) := by
  refine ⟨by simp [get_stats, hauth], by simp [get_stats, hauth],
    by simp [get_stats, hauth], ?_, ?_⟩
  · simp [Plan.get_user_plans]
  · intro plans
    refine ⟨rfl, ?_, ?_, rfl, ?_⟩
    · simp [statsCalc, List.countP_eq_length_filter]
    · simp [statsCalc, List.countP_eq_length_filter]
    · intro key
      exact lookupCount_byCategoryOf plans key

/-- Witness for the amended C10 on a concrete store. -/
theorem C10_amended_get_stats_aggregates_fetched_list_witness :
    get_current_user resolve1 header1 = some user1 ∧
    (get_stats resolve1 header1 storeCatZero).2 =
      some (statsCalc (Plan.get_user_plans storeCatZero (Val.str "u1") 1000 0)) ∧
    (get_stats resolve1 header1 storeCatZero).2 =
      some { total_plans := 1, upcoming_plans := 1, completed_plans := 0,
             total_guests := 2, by_category := [] } := by
  have main := C10_amended_get_stats_aggregates_fetched_list resolve1 header1
    user1 storeCatZero (by decide)
  refine ⟨by decide, ?_, by decide⟩
  have h1 : (Val.str user1.id) = (Val.str "u1") := by decide
  rw [← h1]
  exact main.1

/-- C3 counterexample: the claim that no handler operation ever stores a
`guest_count` below zero fails — `create_plan` forwards a client-supplied
`guest_count` unvalidated, so a creation request carrying `guest_count = -5`
succeeds and stores the negative count. -/
theorem C3_counterexample_negative_guest_count_stored :
    (create_plan resolve1 header1 (fun d => some d) (Val.str "p9")
      (some [("title", Val.str "T"), ("event_date", Val.str "2026-01-01"),
             ("guest_count", Val.int (-5))]) store0).resp.status = 201 ∧
    rget ((create_plan resolve1 header1 (fun d => some d) (Val.str "p9")
      (some [("title", Val.str "T"), ("event_date", Val.str "2026-01-01"),
             ("guest_count", Val.int (-5))]) store0).store.plans.headD [])
      "guest_count" = some (Val.int (-5)) ∧
    ((-5 : Int) < 0) := by
  refine ⟨by decide, by decide, by decide⟩

/-- C3 amended: starting from a plan whose `guest_count` is `N ≥ 0`, one
successful guest-add followed by one successful guest-delete on that plan,
executed sequentially, returns the stored `guest_count` to `N` and restores
the guests table; and the guest-delete handler itself never stores a
negative count (it stores `max 0 (m - 1)`, which is `≥ 0`).  However,
`create_plan` and `update_plan` forward a client-supplied `guest_count`
unvalidated and can store a negative value (see the counterexample). -/
theorem C3_amended_guest_count_round_trip
    (resolve : String → Option AuthUser) (authHeader : Option String)
    (u : AuthUser) (now1 now2 : String) (pid gidNew : String) (s : Store)
    (p : Rec) (n : Int) (data : Rec) (bphones : List Rec)
    (hauth : get_current_user resolve authHeader = some u)
    (hpm : selectEq s.plans "id" (Val.str pid) = [p])
    (hown : rget p "user_id" = some (Val.str u.id))
    (hcount : rget p "guest_count" = some (Val.int n))
    (hn : 0 ≤ n)
    (hfresh : selectEq s.guests "id" (Val.str gidNew) = [])
    (hd : data ≠ [])
    (hname : truthy ((rget data "name").getD Val.null) = true)
    (hph : (processPhones data bphones).any
      (fun ph => !truthy ((rget ph "number").getD Val.null)) = false) :
    (add_guest resolve authHeader now1 (Val.str gidNew) pid (some data)
      bphones s).resp.status = 201 ∧
    (delete_guest resolve authHeader now2 pid gidNew
      (add_guest resolve authHeader now1 (Val.str gidNew) pid (some data)
        bphones s).store).resp.status = Codes.SUCCESS ∧
    (delete_guest resolve authHeader now2 pid gidNew
      (add_guest resolve authHeader now1 (Val.str gidNew) pid (some data)
        bphones s).store).store.guests = s.guests ∧
    ((selectEq (delete_guest resolve authHeader now2 pid gidNew
        (add_guest resolve authHeader now1 (Val.str gidNew) pid (some data)
          bphones s).store).store.plans "id" (Val.str pid)).head?.map
      (fun q => rget q "guest_count")) = some (some (Val.int n)) ∧
    (∀ (resolve2 : String → Option AuthUser) (hdr2 : Option String)
        (u2 : AuthUser) (now3 : String) (pid2 gid2 : String) (s2 : Store)
        (p2 : Rec) (m : Int),
      get_current_user resolve2 hdr2 = some u2 →
      selectEq s2.plans "id" (Val.str pid2) = [p2] →
      rget p2 "user_id" = some (Val.str u2.id) →
      rget p2 "guest_count" = some (Val.int m) →
      selectEq s2.guests "id" (Val.str gid2) ≠ [] →
      ((selectEq (delete_guest resolve2 hdr2 now3 pid2 gid2 s2).store.plans "id"
          (Val.str pid2)).head?.map (fun q => rget q "guest_count")) =
        some (some (Val.int (max 0 (m - 1)))) ∧
      0 ≤ max 0 (m - 1)) := by
  obtain ⟨hst, hgne, hdel, p2, hpm2, hown2, hcount2⟩ :=
    add_guest_effects resolve authHeader u now1 pid gidNew s p n data bphones
      hauth hpm hown hcount hfresh hd hname hph
  obtain ⟨hs2, hg3, hcnt⟩ :=
    delete_guest_count_floor resolve authHeader u now2 pid gidNew
      (add_guest resolve authHeader now1 (Val.str gidNew) pid (some data)
        bphones s).store p2 (n + 1) hauth hpm2 hown2 hcount2 hgne
  have hmm : max 0 (n + 1 - 1) = n := by
    rw [Int.add_sub_cancel]
    exact max_eq_right hn
  refine ⟨hst, hs2, ?_, ?_, ?_⟩
  · rw [hg3, hdel]
  · rw [hcnt, hmm]
  · intro resolve2 hdr2 u2 now3 pid2 gid2 s2 p2' m hauth2 hpm' hown' hcount' hg'
    obtain ⟨_, _, hc⟩ := delete_guest_count_floor resolve2 hdr2 u2 now3 pid2
      gid2 s2 p2' m hauth2 hpm' hown' hcount' hg'
    exact ⟨hc, le_max_left 0 (m - 1)⟩

/-- Witness for the amended C3: adding and deleting a guest on a plan with
three counted guests returns the stored count to three. -/
theorem C3_amended_guest_count_round_trip_witness :
    get_current_user resolve1 header1 = some user1 ∧
    selectEq storeMine.plans "id" (Val.str "p1") = [planMine] ∧
    rget planMine "guest_count" = some (Val.int 3) ∧
    (add_guest resolve1 header1 "t1" (Val.str "g9") "p1"
      (some [("name", Val.str "Bob")]) [] storeMine).resp.status = 201 ∧
    (delete_guest resolve1 header1 "t2" "p1" "g9"
      (add_guest resolve1 header1 "t1" (Val.str "g9") "p1"
        (some [("name", Val.str "Bob")]) [] storeMine).store).store.guests =
      storeMine.guests ∧
    ((selectEq (delete_guest resolve1 header1 "t2" "p1" "g9"
        (add_guest resolve1 header1 "t1" (Val.str "g9") "p1"
          (some [("name", Val.str "Bob")]) [] storeMine).store).store.plans "id"
        (Val.str "p1")).head?.map (fun q => rget q "guest_count")) =
      some (some (Val.int 3)) := by
  have main := C3_amended_guest_count_round_trip resolve1 header1 user1
    "t1" "t2" "p1" "g9" storeMine planMine 3 [("name", Val.str "Bob")] []
    (by decide) (by decide) (by decide) (by decide) (by decide) (by decide)
    (by decide) (by decide) (by decide)
  exact ⟨by decide, by decide, by decide, main.1, main.2.2.1, main.2.2.2.1⟩

end PlanSync
